import Mathlib

/-! # Verification of the tic-tac-toe solver-and-canonicalization engine

A shallow embedding of the repository's board-state core (`js/boardState.js`,
as embedded verbatim in `.agent/artifacts/implementation_plan.md`), the game
tree loader (`js/gameTree.js`), and — modelled from the spec, since the Python
generator `generate_game_tree.py` is not part of the source tree — the minimax
recursion and the canonical-state generation process.

JavaScript numbers appearing as board cells are modelled by `JsNum`: either a
natural number or `NaN` (which `parseInt` produces on non-digit characters).
JavaScript functions that can throw are modelled with `Except String`;
functions that contain no `throw` and call nothing that throws are total.
-/

/-- A JavaScript number as it occurs in this program: a (non-negative) integer
cell value, or `NaN` as produced by `parseInt` on a non-digit character. -/
inductive JsNum where
  | num : Nat → JsNum
  | nan : JsNum
deriving DecidableEq, Repr

/-- `const EMPTY = 0`. -/
def EMPTY : JsNum := .num 0

/-- `const X_PLAYER = 1`. -/
def X_PLAYER : JsNum := .num 1

/-- `const O_PLAYER = 2`. -/
def O_PLAYER : JsNum := .num 2

/-- A board: a JavaScript array of cell values (9 entries in legal use). -/
abbrev Board := List JsNum

/-- `WIN_PATTERNS`: the 3 rows, 3 columns and 2 diagonals, as index triples. -/
def WIN_PATTERNS : List (List Nat) :=
  [[0, 1, 2], [3, 4, 5], [6, 7, 8],
   [0, 3, 6], [1, 4, 7], [2, 5, 8],
   [0, 4, 8], [2, 4, 6]]

/-- `TRANSFORMATIONS`: the 8 symmetry index-permutations of the 3×3 grid. -/
def TRANSFORMATIONS : List (List Nat) :=
  [[0, 1, 2, 3, 4, 5, 6, 7, 8],
   [6, 3, 0, 7, 4, 1, 8, 5, 2],
   [8, 7, 6, 5, 4, 3, 2, 1, 0],
   [2, 5, 8, 1, 4, 7, 0, 3, 6],
   [2, 1, 0, 5, 4, 3, 8, 7, 6],
   [6, 7, 8, 3, 4, 5, 0, 1, 2],
   [0, 3, 6, 1, 4, 7, 2, 5, 8],
   [8, 5, 2, 7, 4, 1, 6, 3, 0]]

/-- `String(n)` for a cell value: a digit string for a number, `"NaN"` for NaN
(as JavaScript's number-to-string conversion inside `Array.prototype.join`). -/
def jsNumToString : JsNum → String
  | .num n => toString n
  | .nan => "NaN"

/-- `BoardState.boardToString(board)`: `board.join('')`. -/
def boardToString (board : Board) : String :=
  String.join (board.map jsNumToString)

/-- `parseInt(c)` for a single character `c`: its value for a digit,
`NaN` otherwise. -/
def parseIntChar (c : Char) : JsNum :=
  if c.isDigit then .num (c.toNat - 48) else .nan

/-- `BoardState.stringToBoard(boardStr)`: `boardStr.split('').map(c => parseInt(c))`. -/
def stringToBoard (boardStr : String) : Board :=
  boardStr.data.map parseIntChar

/-- `BoardState.applyTransformation(board, transformation)`:
`transformation.map(i => board[i])` (out-of-range access yields a non-cell;
never reached on 9-cell boards). -/
def applyTransformation (board : Board) (transformation : List Nat) : Board :=
  transformation.map (fun i => board.getD i .nan)

/-- Lexicographic comparison of character sequences by code point, as
JavaScript's default string comparison used by `Array.prototype.sort()`. -/
def lexLe : List Char → List Char → Bool
  | [], _ => true
  | _ :: _, [] => false
  | a :: as, b :: bs =>
    if a.toNat < b.toNat then true
    else if b.toNat < a.toNat then false
    else lexLe as bs

/-- JavaScript string ordering (`a <= b` by code units). -/
def jsStrLe (a b : String) : Prop := lexLe a.data b.data = true

instance : DecidableRel jsStrLe := fun a b => instDecidableEqBool _ _

/-- The local `allVersions` of `BoardState.getCanonicalKey`: the encodings of
all 8 transformed versions of the board. -/
def allVersions (board : Board) : List String :=
  TRANSFORMATIONS.map (fun t => boardToString (applyTransformation board t))

/-- `BoardState.getCanonicalKey(board)`: encode all 8 transformed versions,
sort them (JavaScript default string sort), take the first. -/
def getCanonicalKey (board : Board) : String :=
  ((allVersions board).insertionSort jsStrLe).headD ("")

/-- The body of `BoardState.checkWinner`'s loop for one pattern:
`const [a, b, c] = pattern; if (board[a] !== EMPTY && board[a] === board[b] &&
board[b] === board[c]) return board[a]`. -/
def patternWin (board : Board) (pattern : List Nat) : Option JsNum :=
  match pattern with
  | [a, b, c] =>
    if board.getD a .nan ≠ EMPTY ∧ board.getD a .nan = board.getD b .nan ∧
        board.getD b .nan = board.getD c .nan then
      some (board.getD a .nan)
    else none
  | _ => none

/-- `BoardState.checkWinner(board)`: the first winning pattern's mark, else
`null` (`none`). -/
def checkWinner (board : Board) : Option JsNum :=
  WIN_PATTERNS.findSome? (patternWin board)

/-- `BoardState.isTerminal(board)`:
`checkWinner(board) !== null || !board.includes(EMPTY)`. -/
def isTerminal (board : Board) : Bool :=
  (checkWinner board).isSome || !(decide (EMPTY ∈ board))

/-- `BoardState.getCurrentPlayer(board)`: X to move when the X and O counts
are equal, else O. -/
def getCurrentPlayer (board : Board) : JsNum :=
  if (board.filter (fun c => c = X_PLAYER)).length
      = (board.filter (fun c => c = O_PLAYER)).length then X_PLAYER else O_PLAYER

/-- `BoardState.getLegalMoves(board)`: indices of empty cells, in order. -/
def getLegalMoves (board : Board) : List Nat :=
  ((board.enum.map (fun p => if p.2 = EMPTY then some p.1 else none)).filter
    (fun o => o.isSome)).filterMap id

/-- `BoardState.makeMove(board, position, player)`: throws when the position is
occupied, else returns a copy with the mark placed. -/
def makeMove (board : Board) (position : Nat) (player : JsNum) : Except String Board :=
  if board.getD position .nan ≠ EMPTY then
    .error ("Invalid move: position already occupied")
  else
    .ok (board.set position player)

/-- `BoardState.getGameStatus(board)`'s result record. -/
structure GameStatus where
  over : Bool
  winner : Option String
  draw : Bool
deriving DecidableEq, Repr

/-- `BoardState.getGameStatus(board)`. -/
def getGameStatus (board : Board) : GameStatus :=
  if checkWinner board = some X_PLAYER then ⟨true, some ("X"), false⟩
  else if checkWinner board = some O_PLAYER then ⟨true, some ("O"), false⟩
  else if ¬ EMPTY ∈ board then ⟨true, none, true⟩
  else ⟨false, none, false⟩

/-- `BoardState.createEmpty()`: `Array(9).fill(EMPTY)`. -/
def createEmpty : Board := List.replicate 9 EMPTY

/-- One move record of the persisted `game_tree.json` table. -/
structure MoveRec where
  pos : Nat
  to_board : String
  minimax_score : Int
  is_optimal : Bool
deriving DecidableEq, Repr

/-- One state record of the persisted `game_tree.json` table. -/
structure GameState where
  turn : Nat
  best_outcome : Int
  next_moves : List MoveRec
  winning_move_pos : Nat
deriving DecidableEq, Repr

/-- The `GameTreeLoader` instance state: the loaded table (a JavaScript object,
modelled as an association list) and the `isLoaded` flag. -/
structure GameTreeLoader where
  gameTree : List (String × GameState)
  isLoaded : Bool

/-- `GameTreeLoader.getState(canonicalKey)`: throws when the tree is not
loaded; else `this.gameTree[canonicalKey] || null`. -/
def GameTreeLoader.getState (l : GameTreeLoader) (canonicalKey : String) :
    Except String (Option GameState) :=
  if l.isLoaded = false then .error ("Game tree not loaded")
  else .ok (match l.gameTree.lookup canonicalKey with
    | some v => some v
    | none => none)

/-- Modelled from the spec: the terminal score of `generate_game_tree.py`'s
minimax solver, which is not under the source tree — +1 for an X line, −1 for
an O line, 0 for a full board with no line — instantiated with the code's
`checkWinner`. -/
def terminalScore (board : Board) : Int :=
  match checkWinner board with
  | some w => if w = X_PLAYER then 1 else if w = O_PLAYER then -1 else 0
  | none => 0

/-- Maximum of a list of scores (0 on the empty list, which the solver never
produces). -/
def maxScore : List Int → Int
  | [] => 0
  | s :: rest => rest.foldl max s

/-- Minimum of a list of scores (0 on the empty list, which the solver never
produces). -/
def minScore : List Int → Int
  | [] => 0
  | s :: rest => rest.foldl min s

/-- Modelled from the spec: the child boards of a position — the mover
determined by parity places their mark in every empty cell — instantiated
with the code's `getCurrentPlayer`, `getLegalMoves` and `makeMove` (whose
error branch is unreachable on the empty cells `getLegalMoves` returns). -/
def childrenOf (board : Board) : List Board :=
  (getLegalMoves board).filterMap
    (fun p => (makeMove board p (getCurrentPlayer board)).toOption)

/-- Modelled from the spec: the minimax recursion of `generate_game_tree.py`,
which is not under the source tree — terminal boards score `terminalScore`;
otherwise the value is the max over children if the mover is X, the min if the
mover is O. `fuel` bounds the recursion depth; any `fuel` at least the number
of empty cells reaches every terminal position, and the game ends within 9
plies from the empty board. -/
def solve : Nat → Board → Int
  | 0, board => terminalScore board
  | fuel + 1, board =>
    if isTerminal board then terminalScore board
    else if getCurrentPlayer board = X_PLAYER then
      maxScore ((childrenOf board).map (fun c => solve fuel c))
    else
      minScore ((childrenOf board).map (fun c => solve fuel c))

/-- A strategy certificate for one player: at that player's turns, `move`
names the position to play; at the opponent's turns, `branch` lists one
sub-certificate per legal reply, in the order of `getLegalMoves`. -/
inductive Cert where
  | leaf : Cert
  | move : Nat → Cert → Cert
  | branch : List Cert → Cert

/-- A numeric code for a board: base-3 digits, most significant first.
Injective on same-length boards whose cells are the values `EMPTY`,
`X_PLAYER`, `O_PLAYER` below 3 — the only boards generation and canonical
keys produce. Used only to deduplicate boards cheaply during generation and
counting. `cellVal` is the digit of one cell. -/
def cellVal : JsNum → Nat
  | .num v => v
  | .nan => 3

def boardLexCode (board : Board) : Nat :=
  board.foldl (fun acc c => acc * 3 + cellVal c) 0

/-- The base-3 digit of the code `n` at cell `i` (most significant first). -/
def digit (n i : Nat) : Nat := n / 3 ^ (8 - i) % 3

/-- Decode a `boardLexCode` back to its 9-cell board. Inverse of
`boardLexCode` on 9-cell boards with cells below 3 (`boardLexCode_decode`).
Generation carries boards as codes and decodes them on demand. -/
def decodeBoardCode (n : Nat) : Board :=
  (List.range 9).map (fun i => .num (digit n i))

/-- `applyTransformation` followed by `boardLexCode`, computed directly on the
code by digit arithmetic (`permN_eq` proves the correspondence). -/
def permN (t : List Nat) (n : Nat) : Nat :=
  t.foldl (fun acc i => acc * 3 + digit n i) 0

/-- Minimum of a list of naturals (0 on the empty list, never produced). -/
def minNat : List Nat → Nat
  | [] => 0
  | x :: rest => rest.foldl min x

/-- The least `boardLexCode` over the 8 symmetry-transformed versions of the
board coded by `n`: a numeric stand-in for the board's symmetry class, used to
deduplicate generation by symmetry exactly as `getCanonicalKey` does
(`getCanonicalKey_decode` proves the correspondence). -/
def canonCodeN (n : Nat) : Nat :=
  minNat (TRANSFORMATIONS.map (fun t => permN t n))

/-- `patternWin` on codes (`patternWinN_eq` proves the correspondence). -/
def patternWinN (n : Nat) (pattern : List Nat) : Option Nat :=
  match pattern with
  | [a, b, c] =>
    if digit n a ≠ 0 ∧ digit n a = digit n b ∧ digit n b = digit n c then
      some (digit n a)
    else none
  | _ => none

/-- `checkWinner` on codes (`checkWinnerN_eq` proves the correspondence). -/
def checkWinnerN (n : Nat) : Option Nat :=
  WIN_PATTERNS.findSome? (patternWinN n)

/-- `isTerminal` on codes (`isTerminalN_eq` proves the correspondence). -/
def isTerminalN (n : Nat) : Bool :=
  (checkWinnerN n).isSome || !(decide (∃ i ∈ List.range 9, digit n i = 0))

/-- `terminalScore` on codes (`terminalScoreN_eq` proves the
correspondence). -/
def terminalScoreN (n : Nat) : Int :=
  match checkWinnerN n with
  | some w => if w = 1 then 1 else if w = 2 then -1 else 0
  | none => 0

/-- `getCurrentPlayer` on codes (`moverN_eq` proves the correspondence). -/
def moverN (n : Nat) : Nat :=
  if ((List.range 9).filter (fun i => digit n i = 1)).length
      = ((List.range 9).filter (fun i => digit n i = 2)).length then 1 else 2

/-- `getLegalMoves` on codes (`legalPsN_eq` proves the correspondence). -/
def legalPsN (n : Nat) : List Nat :=
  (List.range 9).filter (fun p => digit n p = 0)

/-- The code of the child board: the mover's mark placed at the empty cell
`p` (`decode_childNCode` proves the correspondence with `makeMove`). -/
def childNCode (n p : Nat) : Nat := n + moverN n * 3 ^ (8 - p)

/-- `solve` on codes (`solveN_eq` proves the correspondence). -/
def solveN : Nat → Nat → Int
  | 0, n => terminalScoreN n
  | fuel + 1, n =>
    if isTerminalN n then terminalScoreN n
    else if moverN n = 1 then
      maxScore ((legalPsN n).map (fun p => solveN fuel (childNCode n p)))
    else
      minScore ((legalPsN n).map (fun p => solveN fuel (childNCode n p)))

/-- Certificate checker for the lower bound `0 ≤ solveN fuel n`: follows an
X strategy at X's turns and checks every O reply at O's turns. -/
def checkLBN : Nat → Nat → Cert → Bool
  | 0, n, _ => decide ((0 : Int) ≤ terminalScoreN n)
  | fuel + 1, n, cert =>
    if isTerminalN n then decide ((0 : Int) ≤ terminalScoreN n)
    else
      match cert with
      | .move p next =>
        decide (moverN n = 1) && decide (p < 9) && decide (digit n p = 0) &&
          checkLBN fuel (childNCode n p) next
      | .branch cs =>
        decide (moverN n = 2) &&
          (legalPsN n).length == cs.length &&
          ((legalPsN n).zip cs).all (fun pc => checkLBN fuel (childNCode n pc.1) pc.2)
      | .leaf => false

/-- Certificate checker for the upper bound `solveN fuel n ≤ 0`: follows an
O strategy at O's turns and checks every X reply at X's turns. -/
def checkUBN : Nat → Nat → Cert → Bool
  | 0, n, _ => decide (terminalScoreN n ≤ (0 : Int))
  | fuel + 1, n, cert =>
    if isTerminalN n then decide (terminalScoreN n ≤ (0 : Int))
    else
      match cert with
      | .move p next =>
        decide (moverN n = 2) && decide (p < 9) && decide (digit n p = 0) &&
          checkUBN fuel (childNCode n p) next
      | .branch cs =>
        decide (moverN n = 1) &&
          (legalPsN n).length == cs.length &&
          ((legalPsN n).zip cs).all (fun pc => checkUBN fuel (childNCode n pc.1) pc.2)
      | .leaf => false

/-- The generation run's state: the set of symmetry classes already seen (as a
bitmask over `canonCodeN`), the discovered non-terminal canonical
representatives and the still-unexpanded frontier (both as board codes). -/
structure GenState where
  seen : Nat
  reps : List Nat
  frontier : List Nat
deriving DecidableEq, Repr

/-- Modelled from the spec: one round of `generate_game_tree.py`'s generation,
which is not under the source tree — expand every frontier board's children
(the mover's mark placed in every empty cell; `decode_childNCode` and
`childrenOf_decode` relate this code arithmetic to the code's `makeMove` and
`getLegalMoves`); a child whose symmetry class was already seen is skipped, a
terminal child (`isTerminalN_eq` relates the test to the code's `isTerminal`)
is scored but not recorded, and a new non-terminal child becomes a discovered
state and is queued for expansion. -/
def genStep (st : GenState) : GenState :=
  st.frontier.foldl (fun acc n =>
    (legalPsN n).foldl (fun acc2 p =>
      if acc2.seen.testBit (canonCodeN (childNCode n p)) then acc2
      else if isTerminalN (childNCode n p) then
        { acc2 with seen := acc2.seen ||| (1 <<< canonCodeN (childNCode n p)) }
      else { seen := acc2.seen ||| (1 <<< canonCodeN (childNCode n p)),
             reps := acc2.reps ++ [childNCode n p],
             frontier := acc2.frontier ++ [childNCode n p] })
      acc)
    { st with frontier := [] }

/-- Iterate `genStep`. -/
def genIter : Nat → GenState → GenState
  | 0, st => st
  | n + 1, st => genIter n (genStep st)

/-- The generation run's initial state: only the empty board, already marked
seen. -/
def initGen : GenState :=
  { seen := 1 <<< canonCodeN (boardLexCode createEmpty),
    reps := [boardLexCode createEmpty],
    frontier := [boardLexCode createEmpty] }

/-- Modelled from the spec: the non-terminal canonical states generated from
the empty board, one representative board per symmetry class, by 9 rounds of
expansion (the game lasts at most 9 plies). -/
def discoveredStates : List Board :=
  (genIter 9 initGen).reps.map decodeBoardCode

/-- The number of distinct indices in a list, via a bitmask. -/
def countIdx (idxs : List Nat) : Nat :=
  (idxs.foldl (fun acc i =>
    if acc.2.testBit i then acc else (acc.1 + 1, acc.2 ||| (1 <<< i)))
    ((0, 0) : Nat × Nat)).1

/-- The numeric index identifying a key: the code of the decoded board, offset
by 3 to the power of the length of the key, so that two keys agree exactly
when their indices agree. -/
def keyIdx (k : String) : Nat := boardLexCode (stringToBoard k) + 3 ^ k.length

/-- The number of distinct strings in a list of keys. -/
def countDistinctKeys (keys : List String) : Nat := countIdx (keys.map keyIdx)

/-- Composition of index-permutations: applying `s` then `t` reads the cells
`s[t[0]], s[t[1]], …`. -/
def compPerm (s t : List Nat) : List Nat := t.map (fun j => s.getD j 0)

/-- The claim side of the terminal test: the winning pattern holds three
identical non-empty cells. -/
def winningLine (board : Board) (pattern : List Nat) : Prop :=
  ∃ a i j, pattern = [a, i, j] ∧ board.getD a .nan ≠ EMPTY ∧
    board.getD a .nan = board.getD i .nan ∧ board.getD i .nan = board.getD j .nan

/-- `BoardState.boardToString` seen as a JavaScript call that may throw: the
function body contains no `throw` and calls nothing that throws, so it always
returns. -/
def boardToStringE (board : Board) : Except String String :=
  .ok (boardToString board)

/-- `BoardState.stringToBoard` seen as a JavaScript call that may throw: the
function body contains no `throw` and calls nothing that throws (`parseInt`
yields `NaN` rather than throwing), so it always returns. -/
def stringToBoardE (boardStr : String) : Except String Board :=
  .ok (stringToBoard boardStr)

/-- A sample table record, used to exercise `GameTreeLoader.getState`. -/
def sampleState : GameState :=
  { turn := 1, best_outcome := 0, next_moves := [], winning_move_pos := 0 }

/-- A sample loaded `GameTreeLoader`, used to exercise `getState`. -/
def sampleLoader : GameTreeLoader :=
  { gameTree := [("000000000", sampleState)], isLoaded := true }

/-- A drawing strategy for X from the empty board, mined from the solved
game and checked by `checkLB`: it witnesses `0 ≤ solve 9 createEmpty`. -/
def certLB : Cert :=
  (Cert.move 0 (Cert.branch [(Cert.move 2 (Cert.branch [(Cert.move 4 (Cert.branch [(Cert.move 6 Cert.leaf), (Cert.move 5 (Cert.branch [(Cert.move 8 Cert.leaf), (Cert.move 7 Cert.leaf)])), (Cert.move 5 (Cert.branch [(Cert.move 8 Cert.leaf), (Cert.move 6 Cert.leaf)])), (Cert.move 5 (Cert.branch [(Cert.move 7 Cert.leaf), (Cert.move 6 Cert.leaf)]))])), (Cert.move 7 (Cert.branch [(Cert.move 5 (Cert.branch [(Cert.move 8 Cert.leaf), (Cert.move 6 Cert.leaf)])), (Cert.move 3 (Cert.branch [(Cert.move 8 Cert.leaf), (Cert.move 6 Cert.leaf)])), (Cert.move 3 (Cert.branch [(Cert.move 8 Cert.leaf), (Cert.move 5 Cert.leaf)])), (Cert.move 3 (Cert.branch [(Cert.move 6 Cert.leaf), (Cert.move 5 Cert.leaf)]))])), (Cert.move 3 (Cert.branch [(Cert.move 6 Cert.leaf), (Cert.move 4 (Cert.branch [(Cert.move 8 Cert.leaf), (Cert.move 7 Cert.leaf)])), (Cert.move 4 (Cert.branch [(Cert.move 8 Cert.leaf), (Cert.move 6 Cert.leaf)])), (Cert.move 4 (Cert.branch [(Cert.move 7 Cert.leaf), (Cert.move 6 Cert.leaf)]))])), (Cert.move 4 (Cert.branch [(Cert.move 5 (Cert.branch [(Cert.move 8 Cert.leaf), (Cert.move 7 Cert.leaf)])), (Cert.move 3 (Cert.branch [(Cert.move 8 Cert.leaf), (Cert.move 7 Cert.leaf)])), (Cert.move 8 Cert.leaf), (Cert.move 7 (Cert.branch [(Cert.move 5 Cert.leaf), (Cert.move 3 Cert.leaf)]))])), (Cert.move 4 (Cert.branch [(Cert.move 5 (Cert.branch [(Cert.move 8 Cert.leaf), (Cert.move 6 Cert.leaf)])), (Cert.move 3 (Cert.branch [(Cert.move 8 Cert.leaf), (Cert.move 6 Cert.leaf)])), (Cert.move 8 Cert.leaf), (Cert.move 6 Cert.leaf)])), (Cert.move 3 (Cert.branch [(Cert.move 6 Cert.leaf), (Cert.move 4 (Cert.branch [(Cert.move 7 Cert.leaf), (Cert.move 6 Cert.leaf)])), (Cert.move 7 (Cert.branch [(Cert.move 5 Cert.leaf), (Cert.move 4 Cert.leaf)])), (Cert.move 6 Cert.leaf)]))])), (Cert.move 3 (Cert.branch [(Cert.move 4 (Cert.branch [(Cert.move 6 Cert.leaf), (Cert.move 5 Cert.leaf), (Cert.move 5 Cert.leaf), (Cert.move 5 Cert.leaf)])), (Cert.move 6 Cert.leaf), (Cert.move 6 Cert.leaf), (Cert.move 4 (Cert.branch [(Cert.move 5 Cert.leaf), (Cert.move 8 Cert.leaf), (Cert.move 5 Cert.leaf), (Cert.move 5 Cert.leaf)])), (Cert.move 4 (Cert.branch [(Cert.move 5 Cert.leaf), (Cert.move 6 Cert.leaf), (Cert.move 5 Cert.leaf), (Cert.move 5 Cert.leaf)])), (Cert.move 5 (Cert.branch [(Cert.move 4 Cert.leaf), (Cert.move 6 Cert.leaf), (Cert.move 4 Cert.leaf), (Cert.move 4 Cert.leaf)]))])), (Cert.move 1 (Cert.branch [(Cert.move 4 (Cert.branch [(Cert.move 7 Cert.leaf), (Cert.move 5 (Cert.branch [(Cert.move 8 Cert.leaf), (Cert.move 7 Cert.leaf)])), (Cert.move 5 (Cert.branch [(Cert.move 8 Cert.leaf), (Cert.move 6 Cert.leaf)])), (Cert.move 5 (Cert.branch [(Cert.move 7 Cert.leaf), (Cert.move 6 Cert.leaf)]))])), (Cert.move 2 Cert.leaf), (Cert.move 2 Cert.leaf), (Cert.move 2 Cert.leaf), (Cert.move 2 Cert.leaf), (Cert.move 2 Cert.leaf)])), (Cert.move 1 (Cert.branch [(Cert.move 6 (Cert.branch [(Cert.move 5 (Cert.branch [(Cert.move 8 Cert.leaf), (Cert.move 7 Cert.leaf)])), (Cert.move 3 Cert.leaf), (Cert.move 3 Cert.leaf), (Cert.move 3 Cert.leaf)])), (Cert.move 2 Cert.leaf), (Cert.move 2 Cert.leaf), (Cert.move 2 Cert.leaf), (Cert.move 2 Cert.leaf), (Cert.move 2 Cert.leaf)])), (Cert.move 2 (Cert.branch [(Cert.move 3 (Cert.branch [(Cert.move 6 Cert.leaf), (Cert.move 4 (Cert.branch [(Cert.move 8 Cert.leaf), (Cert.move 7 Cert.leaf)])), (Cert.move 4 (Cert.branch [(Cert.move 8 Cert.leaf), (Cert.move 6 Cert.leaf)])), (Cert.move 4 (Cert.branch [(Cert.move 7 Cert.leaf), (Cert.move 6 Cert.leaf)]))])), (Cert.move 1 Cert.leaf), (Cert.move 1 Cert.leaf), (Cert.move 1 Cert.leaf), (Cert.move 1 Cert.leaf), (Cert.move 1 Cert.leaf)])), (Cert.move 1 (Cert.branch [(Cert.move 4 (Cert.branch [(Cert.move 5 (Cert.branch [(Cert.move 8 Cert.leaf), (Cert.move 7 Cert.leaf)])), (Cert.move 7 Cert.leaf), (Cert.move 8 Cert.leaf), (Cert.move 7 Cert.leaf)])), (Cert.move 2 Cert.leaf), (Cert.move 2 Cert.leaf), (Cert.move 2 Cert.leaf), (Cert.move 2 Cert.leaf), (Cert.move 2 Cert.leaf)])), (Cert.move 1 (Cert.branch [(Cert.move 6 (Cert.branch [(Cert.move 4 (Cert.branch [(Cert.move 8 Cert.leaf), (Cert.move 5 Cert.leaf)])), (Cert.move 3 Cert.leaf), (Cert.move 3 Cert.leaf), (Cert.move 3 Cert.leaf)])), (Cert.move 2 Cert.leaf), (Cert.move 2 Cert.leaf), (Cert.move 2 Cert.leaf), (Cert.move 2 Cert.leaf), (Cert.move 2 Cert.leaf)])), (Cert.move 2 (Cert.branch [(Cert.move 3 (Cert.branch [(Cert.move 6 Cert.leaf), (Cert.move 4 (Cert.branch [(Cert.move 7 Cert.leaf), (Cert.move 6 Cert.leaf)])), (Cert.move 7 (Cert.branch [(Cert.move 5 Cert.leaf), (Cert.move 4 Cert.leaf)])), (Cert.move 6 Cert.leaf)])), (Cert.move 1 Cert.leaf), (Cert.move 1 Cert.leaf), (Cert.move 1 Cert.leaf), (Cert.move 1 Cert.leaf), (Cert.move 1 Cert.leaf)]))]))

/-- A drawing strategy for O from the empty board, mined from the solved
game and checked by `checkUB`: it witnesses `solve 9 createEmpty ≤ 0`. -/
def certUB : Cert :=
  (Cert.branch [(Cert.move 4 (Cert.branch [(Cert.move 2 (Cert.branch [(Cert.move 6 Cert.leaf), (Cert.move 3 (Cert.branch [(Cert.move 7 (Cert.branch [Cert.leaf])), (Cert.move 6 Cert.leaf), (Cert.move 6 Cert.leaf)])), (Cert.move 3 (Cert.branch [(Cert.move 7 (Cert.branch [Cert.leaf])), (Cert.move 5 Cert.leaf), (Cert.move 5 Cert.leaf)])), (Cert.move 3 (Cert.branch [(Cert.move 6 Cert.leaf), (Cert.move 5 Cert.leaf), (Cert.move 5 Cert.leaf)])), (Cert.move 3 (Cert.branch [(Cert.move 6 Cert.leaf), (Cert.move 5 Cert.leaf), (Cert.move 5 Cert.leaf)]))])), (Cert.move 1 (Cert.branch [(Cert.move 6 (Cert.branch [(Cert.move 7 Cert.leaf), (Cert.move 5 (Cert.branch [Cert.leaf])), (Cert.move 5 (Cert.branch [Cert.leaf]))])), (Cert.move 7 Cert.leaf), (Cert.move 3 (Cert.branch [(Cert.move 7 Cert.leaf), (Cert.move 5 Cert.leaf), (Cert.move 5 Cert.leaf)])), (Cert.move 3 (Cert.branch [(Cert.move 8 (Cert.branch [Cert.leaf])), (Cert.move 5 Cert.leaf), (Cert.move 5 Cert.leaf)])), (Cert.move 5 (Cert.branch [(Cert.move 6 (Cert.branch [Cert.leaf])), (Cert.move 3 Cert.leaf), (Cert.move 3 Cert.leaf)]))])), (Cert.move 6 (Cert.branch [(Cert.move 2 Cert.leaf), (Cert.move 1 (Cert.branch [(Cert.move 7 Cert.leaf), (Cert.move 5 (Cert.branch [Cert.leaf])), (Cert.move 5 (Cert.branch [Cert.leaf]))])), (Cert.move 1 (Cert.branch [(Cert.move 7 Cert.leaf), (Cert.move 2 Cert.leaf), (Cert.move 2 Cert.leaf)])), (Cert.move 1 (Cert.branch [(Cert.move 5 (Cert.branch [Cert.leaf])), (Cert.move 2 Cert.leaf), (Cert.move 2 Cert.leaf)])), (Cert.move 1 (Cert.branch [(Cert.move 5 (Cert.branch [Cert.leaf])), (Cert.move 2 Cert.leaf), (Cert.move 2 Cert.leaf)]))])), (Cert.move 1 (Cert.branch [(Cert.move 7 Cert.leaf), (Cert.move 6 (Cert.branch [(Cert.move 7 Cert.leaf), (Cert.move 2 Cert.leaf), (Cert.move 2 Cert.leaf)])), (Cert.move 3 (Cert.branch [(Cert.move 7 Cert.leaf), (Cert.move 8 (Cert.branch [Cert.leaf])), (Cert.move 7 Cert.leaf)])), (Cert.move 6 (Cert.branch [(Cert.move 8 (Cert.branch [Cert.leaf])), (Cert.move 2 Cert.leaf), (Cert.move 2 Cert.leaf)])), (Cert.move 2 (Cert.branch [(Cert.move 6 Cert.leaf), (Cert.move 7 Cert.leaf), (Cert.move 6 Cert.leaf)]))])), (Cert.move 3 (Cert.branch [(Cert.move 2 (Cert.branch [(Cert.move 7 (Cert.branch [Cert.leaf])), (Cert.move 5 Cert.leaf), (Cert.move 5 Cert.leaf)])), (Cert.move 1 (Cert.branch [(Cert.move 7 Cert.leaf), (Cert.move 5 Cert.leaf), (Cert.move 5 Cert.leaf)])), (Cert.move 1 (Cert.branch [(Cert.move 7 Cert.leaf), (Cert.move 8 (Cert.branch [Cert.leaf])), (Cert.move 7 Cert.leaf)])), (Cert.move 5 Cert.leaf), (Cert.move 5 Cert.leaf)])), (Cert.move 3 (Cert.branch [(Cert.move 2 (Cert.branch [(Cert.move 6 Cert.leaf), (Cert.move 5 Cert.leaf), (Cert.move 5 Cert.leaf)])), (Cert.move 1 (Cert.branch [(Cert.move 8 (Cert.branch [Cert.leaf])), (Cert.move 5 Cert.leaf), (Cert.move 5 Cert.leaf)])), (Cert.move 2 (Cert.branch [(Cert.move 6 Cert.leaf), (Cert.move 8 (Cert.branch [Cert.leaf])), (Cert.move 6 Cert.leaf)])), (Cert.move 5 Cert.leaf), (Cert.move 5 Cert.leaf)])), (Cert.move 1 (Cert.branch [(Cert.move 5 (Cert.branch [(Cert.move 6 (Cert.branch [Cert.leaf])), (Cert.move 3 Cert.leaf), (Cert.move 3 Cert.leaf)])), (Cert.move 6 (Cert.branch [(Cert.move 5 (Cert.branch [Cert.leaf])), (Cert.move 2 Cert.leaf), (Cert.move 2 Cert.leaf)])), (Cert.move 2 (Cert.branch [(Cert.move 6 Cert.leaf), (Cert.move 7 Cert.leaf), (Cert.move 6 Cert.leaf)])), (Cert.move 7 Cert.leaf), (Cert.move 6 (Cert.branch [(Cert.move 5 (Cert.branch [Cert.leaf])), (Cert.move 2 Cert.leaf), (Cert.move 2 Cert.leaf)]))]))])), (Cert.move 0 (Cert.branch [(Cert.move 3 (Cert.branch [(Cert.move 6 Cert.leaf), (Cert.move 6 Cert.leaf), (Cert.move 4 (Cert.branch [(Cert.move 8 Cert.leaf), (Cert.move 5 Cert.leaf), (Cert.move 5 Cert.leaf)])), (Cert.move 4 (Cert.branch [(Cert.move 6 Cert.leaf), (Cert.move 5 Cert.leaf), (Cert.move 5 Cert.leaf)])), (Cert.move 5 (Cert.branch [(Cert.move 6 Cert.leaf), (Cert.move 4 Cert.leaf), (Cert.move 4 Cert.leaf)]))])), (Cert.move 4 (Cert.branch [(Cert.move 5 (Cert.branch [(Cert.move 7 (Cert.branch [Cert.leaf])), (Cert.move 6 (Cert.branch [Cert.leaf])), (Cert.move 6 (Cert.branch [Cert.leaf]))])), (Cert.move 2 (Cert.branch [(Cert.move 7 (Cert.branch [Cert.leaf])), (Cert.move 6 Cert.leaf), (Cert.move 6 Cert.leaf)])), (Cert.move 2 (Cert.branch [(Cert.move 7 (Cert.branch [Cert.leaf])), (Cert.move 8 Cert.leaf), (Cert.move 7 (Cert.branch [Cert.leaf]))])), (Cert.move 2 (Cert.branch [(Cert.move 6 Cert.leaf), (Cert.move 8 Cert.leaf), (Cert.move 6 Cert.leaf)])), (Cert.move 2 (Cert.branch [(Cert.move 6 Cert.leaf), (Cert.move 7 (Cert.branch [Cert.leaf])), (Cert.move 6 Cert.leaf)]))])), (Cert.move 7 (Cert.branch [(Cert.move 6 (Cert.branch [(Cert.move 5 (Cert.branch [Cert.leaf])), (Cert.move 3 Cert.leaf), (Cert.move 3 Cert.leaf)])), (Cert.move 5 (Cert.branch [(Cert.move 6 (Cert.branch [Cert.leaf])), (Cert.move 2 (Cert.branch [Cert.leaf])), (Cert.move 2 (Cert.branch [Cert.leaf]))])), (Cert.move 3 (Cert.branch [(Cert.move 6 Cert.leaf), (Cert.move 2 (Cert.branch [Cert.leaf])), (Cert.move 2 (Cert.branch [Cert.leaf]))])), (Cert.move 2 (Cert.branch [(Cert.move 5 (Cert.branch [Cert.leaf])), (Cert.move 3 (Cert.branch [Cert.leaf])), (Cert.move 3 (Cert.branch [Cert.leaf]))])), (Cert.move 2 (Cert.branch [(Cert.move 5 (Cert.branch [Cert.leaf])), (Cert.move 3 (Cert.branch [Cert.leaf])), (Cert.move 3 (Cert.branch [Cert.leaf]))]))])), (Cert.move 4 (Cert.branch [(Cert.move 8 Cert.leaf), (Cert.move 2 (Cert.branch [(Cert.move 7 (Cert.branch [Cert.leaf])), (Cert.move 6 Cert.leaf), (Cert.move 6 Cert.leaf)])), (Cert.move 2 (Cert.branch [(Cert.move 7 (Cert.branch [Cert.leaf])), (Cert.move 8 Cert.leaf), (Cert.move 7 (Cert.branch [Cert.leaf]))])), (Cert.move 2 (Cert.branch [(Cert.move 6 Cert.leaf), (Cert.move 8 Cert.leaf), (Cert.move 6 Cert.leaf)])), (Cert.move 2 (Cert.branch [(Cert.move 6 Cert.leaf), (Cert.move 7 (Cert.branch [Cert.leaf])), (Cert.move 6 Cert.leaf)]))])), (Cert.move 4 (Cert.branch [(Cert.move 3 (Cert.branch [(Cert.move 8 Cert.leaf), (Cert.move 5 Cert.leaf), (Cert.move 5 Cert.leaf)])), (Cert.move 2 (Cert.branch [(Cert.move 7 (Cert.branch [Cert.leaf])), (Cert.move 8 Cert.leaf), (Cert.move 7 (Cert.branch [Cert.leaf]))])), (Cert.move 2 (Cert.branch [(Cert.move 7 (Cert.branch [Cert.leaf])), (Cert.move 8 Cert.leaf), (Cert.move 7 (Cert.branch [Cert.leaf]))])), (Cert.move 8 Cert.leaf), (Cert.move 7 (Cert.branch [(Cert.move 5 (Cert.branch [Cert.leaf])), (Cert.move 2 (Cert.branch [Cert.leaf])), (Cert.move 2 (Cert.branch [Cert.leaf]))]))])), (Cert.move 4 (Cert.branch [(Cert.move 3 (Cert.branch [(Cert.move 6 Cert.leaf), (Cert.move 5 Cert.leaf), (Cert.move 5 Cert.leaf)])), (Cert.move 2 (Cert.branch [(Cert.move 6 Cert.leaf), (Cert.move 8 Cert.leaf), (Cert.move 6 Cert.leaf)])), (Cert.move 2 (Cert.branch [(Cert.move 6 Cert.leaf), (Cert.move 8 Cert.leaf), (Cert.move 6 Cert.leaf)])), (Cert.move 8 Cert.leaf), (Cert.move 6 (Cert.branch [(Cert.move 3 Cert.leaf), (Cert.move 2 Cert.leaf), (Cert.move 2 Cert.leaf)]))])), (Cert.move 4 (Cert.branch [(Cert.move 5 (Cert.branch [(Cert.move 6 (Cert.branch [Cert.leaf])), (Cert.move 3 Cert.leaf), (Cert.move 3 Cert.leaf)])), (Cert.move 2 (Cert.branch [(Cert.move 6 Cert.leaf), (Cert.move 7 (Cert.branch [Cert.leaf])), (Cert.move 6 Cert.leaf)])), (Cert.move 2 (Cert.branch [(Cert.move 6 Cert.leaf), (Cert.move 7 (Cert.branch [Cert.leaf])), (Cert.move 6 Cert.leaf)])), (Cert.move 7 (Cert.branch [(Cert.move 5 (Cert.branch [Cert.leaf])), (Cert.move 2 (Cert.branch [Cert.leaf])), (Cert.move 2 (Cert.branch [Cert.leaf]))])), (Cert.move 6 (Cert.branch [(Cert.move 3 Cert.leaf), (Cert.move 2 Cert.leaf), (Cert.move 2 Cert.leaf)]))]))])), (Cert.move 4 (Cert.branch [(Cert.move 1 (Cert.branch [(Cert.move 6 (Cert.branch [(Cert.move 7 Cert.leaf), (Cert.move 5 (Cert.branch [Cert.leaf])), (Cert.move 5 (Cert.branch [Cert.leaf]))])), (Cert.move 7 Cert.leaf), (Cert.move 3 (Cert.branch [(Cert.move 7 Cert.leaf), (Cert.move 5 Cert.leaf), (Cert.move 5 Cert.leaf)])), (Cert.move 3 (Cert.branch [(Cert.move 8 (Cert.branch [Cert.leaf])), (Cert.move 5 Cert.leaf), (Cert.move 5 Cert.leaf)])), (Cert.move 5 (Cert.branch [(Cert.move 6 (Cert.branch [Cert.leaf])), (Cert.move 3 Cert.leaf), (Cert.move 3 Cert.leaf)]))])), (Cert.move 0 (Cert.branch [(Cert.move 5 (Cert.branch [(Cert.move 7 (Cert.branch [Cert.leaf])), (Cert.move 6 (Cert.branch [Cert.leaf])), (Cert.move 6 (Cert.branch [Cert.leaf]))])), (Cert.move 8 Cert.leaf), (Cert.move 3 (Cert.branch [(Cert.move 8 Cert.leaf), (Cert.move 5 Cert.leaf), (Cert.move 5 Cert.leaf)])), (Cert.move 3 (Cert.branch [(Cert.move 6 Cert.leaf), (Cert.move 5 Cert.leaf), (Cert.move 5 Cert.leaf)])), (Cert.move 5 (Cert.branch [(Cert.move 6 (Cert.branch [Cert.leaf])), (Cert.move 3 Cert.leaf), (Cert.move 3 Cert.leaf)]))])), (Cert.move 0 (Cert.branch [(Cert.move 5 (Cert.branch [(Cert.move 7 (Cert.branch [Cert.leaf])), (Cert.move 6 (Cert.branch [Cert.leaf])), (Cert.move 6 (Cert.branch [Cert.leaf]))])), (Cert.move 8 Cert.leaf), (Cert.move 1 (Cert.branch [(Cert.move 7 Cert.leaf), (Cert.move 8 Cert.leaf), (Cert.move 7 Cert.leaf)])), (Cert.move 5 (Cert.branch [(Cert.move 6 (Cert.branch [Cert.leaf])), (Cert.move 8 Cert.leaf), (Cert.move 6 (Cert.branch [Cert.leaf]))])), (Cert.move 5 (Cert.branch [(Cert.move 6 (Cert.branch [Cert.leaf])), (Cert.move 7 (Cert.branch [Cert.leaf])), (Cert.move 6 (Cert.branch [Cert.leaf]))]))])), (Cert.move 8 (Cert.branch [(Cert.move 1 (Cert.branch [(Cert.move 6 (Cert.branch [Cert.leaf])), (Cert.move 3 (Cert.branch [Cert.leaf])), (Cert.move 3 (Cert.branch [Cert.leaf]))])), (Cert.move 0 Cert.leaf), (Cert.move 0 Cert.leaf), (Cert.move 0 Cert.leaf), (Cert.move 0 Cert.leaf)])), (Cert.move 1 (Cert.branch [(Cert.move 3 (Cert.branch [(Cert.move 7 Cert.leaf), (Cert.move 5 Cert.leaf), (Cert.move 5 Cert.leaf)])), (Cert.move 0 (Cert.branch [(Cert.move 7 Cert.leaf), (Cert.move 8 Cert.leaf), (Cert.move 7 Cert.leaf)])), (Cert.move 7 Cert.leaf), (Cert.move 8 (Cert.branch [(Cert.move 3 (Cert.branch [Cert.leaf])), (Cert.move 0 Cert.leaf), (Cert.move 0 Cert.leaf)])), (Cert.move 7 Cert.leaf)])), (Cert.move 3 (Cert.branch [(Cert.move 1 (Cert.branch [(Cert.move 8 (Cert.branch [Cert.leaf])), (Cert.move 5 Cert.leaf), (Cert.move 5 Cert.leaf)])), (Cert.move 0 (Cert.branch [(Cert.move 6 Cert.leaf), (Cert.move 5 Cert.leaf), (Cert.move 5 Cert.leaf)])), (Cert.move 8 (Cert.branch [(Cert.move 1 (Cert.branch [Cert.leaf])), (Cert.move 0 Cert.leaf), (Cert.move 0 Cert.leaf)])), (Cert.move 5 Cert.leaf), (Cert.move 5 Cert.leaf)])), (Cert.move 5 (Cert.branch [(Cert.move 1 (Cert.branch [(Cert.move 6 (Cert.branch [Cert.leaf])), (Cert.move 3 Cert.leaf), (Cert.move 3 Cert.leaf)])), (Cert.move 0 (Cert.branch [(Cert.move 6 (Cert.branch [Cert.leaf])), (Cert.move 3 Cert.leaf), (Cert.move 3 Cert.leaf)])), (Cert.move 0 (Cert.branch [(Cert.move 6 (Cert.branch [Cert.leaf])), (Cert.move 7 (Cert.branch [Cert.leaf])), (Cert.move 6 (Cert.branch [Cert.leaf]))])), (Cert.move 3 Cert.leaf), (Cert.move 3 Cert.leaf)]))])), (Cert.move 0 (Cert.branch [(Cert.move 4 (Cert.branch [(Cert.move 5 (Cert.branch [(Cert.move 7 (Cert.branch [Cert.leaf])), (Cert.move 6 (Cert.branch [Cert.leaf])), (Cert.move 6 (Cert.branch [Cert.leaf]))])), (Cert.move 2 (Cert.branch [(Cert.move 7 (Cert.branch [Cert.leaf])), (Cert.move 6 Cert.leaf), (Cert.move 6 Cert.leaf)])), (Cert.move 2 (Cert.branch [(Cert.move 7 (Cert.branch [Cert.leaf])), (Cert.move 8 Cert.leaf), (Cert.move 7 (Cert.branch [Cert.leaf]))])), (Cert.move 2 (Cert.branch [(Cert.move 6 Cert.leaf), (Cert.move 8 Cert.leaf), (Cert.move 6 Cert.leaf)])), (Cert.move 2 (Cert.branch [(Cert.move 6 Cert.leaf), (Cert.move 7 (Cert.branch [Cert.leaf])), (Cert.move 6 Cert.leaf)]))])), (Cert.move 4 (Cert.branch [(Cert.move 5 (Cert.branch [(Cert.move 7 (Cert.branch [Cert.leaf])), (Cert.move 6 (Cert.branch [Cert.leaf])), (Cert.move 6 (Cert.branch [Cert.leaf]))])), (Cert.move 8 Cert.leaf), (Cert.move 1 (Cert.branch [(Cert.move 7 Cert.leaf), (Cert.move 8 Cert.leaf), (Cert.move 7 Cert.leaf)])), (Cert.move 5 (Cert.branch [(Cert.move 6 (Cert.branch [Cert.leaf])), (Cert.move 8 Cert.leaf), (Cert.move 6 (Cert.branch [Cert.leaf]))])), (Cert.move 5 (Cert.branch [(Cert.move 6 (Cert.branch [Cert.leaf])), (Cert.move 7 (Cert.branch [Cert.leaf])), (Cert.move 6 (Cert.branch [Cert.leaf]))]))])), (Cert.move 5 (Cert.branch [(Cert.move 7 (Cert.branch [(Cert.move 6 (Cert.branch [Cert.leaf])), (Cert.move 2 (Cert.branch [Cert.leaf])), (Cert.move 2 (Cert.branch [Cert.leaf]))])), (Cert.move 6 (Cert.branch [(Cert.move 7 (Cert.branch [Cert.leaf])), (Cert.move 1 (Cert.branch [Cert.leaf])), (Cert.move 1 (Cert.branch [Cert.leaf]))])), (Cert.move 2 (Cert.branch [(Cert.move 7 (Cert.branch [Cert.leaf])), (Cert.move 1 Cert.leaf), (Cert.move 1 Cert.leaf)])), (Cert.move 1 (Cert.branch [(Cert.move 6 (Cert.branch [Cert.leaf])), (Cert.move 2 Cert.leaf), (Cert.move 2 Cert.leaf)])), (Cert.move 1 (Cert.branch [(Cert.move 6 (Cert.branch [Cert.leaf])), (Cert.move 2 Cert.leaf), (Cert.move 2 Cert.leaf)]))])), (Cert.move 4 (Cert.branch [(Cert.move 2 (Cert.branch [(Cert.move 7 (Cert.branch [Cert.leaf])), (Cert.move 6 Cert.leaf), (Cert.move 6 Cert.leaf)])), (Cert.move 8 Cert.leaf), (Cert.move 1 (Cert.branch [(Cert.move 7 Cert.leaf), (Cert.move 2 Cert.leaf), (Cert.move 2 Cert.leaf)])), (Cert.move 1 (Cert.branch [(Cert.move 8 Cert.leaf), (Cert.move 2 Cert.leaf), (Cert.move 2 Cert.leaf)])), (Cert.move 2 (Cert.branch [(Cert.move 6 Cert.leaf), (Cert.move 1 Cert.leaf), (Cert.move 1 Cert.leaf)]))])), (Cert.move 1 (Cert.branch [(Cert.move 4 (Cert.branch [(Cert.move 7 Cert.leaf), (Cert.move 8 Cert.leaf), (Cert.move 7 Cert.leaf)])), (Cert.move 2 Cert.leaf), (Cert.move 2 Cert.leaf), (Cert.move 2 Cert.leaf), (Cert.move 2 Cert.leaf)])), (Cert.move 2 (Cert.branch [(Cert.move 4 (Cert.branch [(Cert.move 6 Cert.leaf), (Cert.move 8 Cert.leaf), (Cert.move 6 Cert.leaf)])), (Cert.move 1 Cert.leaf), (Cert.move 1 Cert.leaf), (Cert.move 1 Cert.leaf), (Cert.move 1 Cert.leaf)])), (Cert.move 2 (Cert.branch [(Cert.move 4 (Cert.branch [(Cert.move 6 Cert.leaf), (Cert.move 7 (Cert.branch [Cert.leaf])), (Cert.move 6 Cert.leaf)])), (Cert.move 1 Cert.leaf), (Cert.move 1 Cert.leaf), (Cert.move 1 Cert.leaf), (Cert.move 1 Cert.leaf)]))])), (Cert.move 0 (Cert.branch [(Cert.move 7 (Cert.branch [(Cert.move 6 (Cert.branch [(Cert.move 5 (Cert.branch [Cert.leaf])), (Cert.move 3 Cert.leaf), (Cert.move 3 Cert.leaf)])), (Cert.move 5 (Cert.branch [(Cert.move 6 (Cert.branch [Cert.leaf])), (Cert.move 2 (Cert.branch [Cert.leaf])), (Cert.move 2 (Cert.branch [Cert.leaf]))])), (Cert.move 3 (Cert.branch [(Cert.move 6 Cert.leaf), (Cert.move 2 (Cert.branch [Cert.leaf])), (Cert.move 2 (Cert.branch [Cert.leaf]))])), (Cert.move 2 (Cert.branch [(Cert.move 5 (Cert.branch [Cert.leaf])), (Cert.move 3 (Cert.branch [Cert.leaf])), (Cert.move 3 (Cert.branch [Cert.leaf]))])), (Cert.move 2 (Cert.branch [(Cert.move 5 (Cert.branch [Cert.leaf])), (Cert.move 3 (Cert.branch [Cert.leaf])), (Cert.move 3 (Cert.branch [Cert.leaf]))]))])), (Cert.move 6 (Cert.branch [(Cert.move 3 Cert.leaf), (Cert.move 5 (Cert.branch [(Cert.move 7 (Cert.branch [Cert.leaf])), (Cert.move 1 (Cert.branch [Cert.leaf])), (Cert.move 1 (Cert.branch [Cert.leaf]))])), (Cert.move 3 Cert.leaf), (Cert.move 1 (Cert.branch [(Cert.move 5 (Cert.branch [Cert.leaf])), (Cert.move 3 Cert.leaf), (Cert.move 3 Cert.leaf)])), (Cert.move 3 Cert.leaf)])), (Cert.move 5 (Cert.branch [(Cert.move 7 (Cert.branch [(Cert.move 6 (Cert.branch [Cert.leaf])), (Cert.move 2 (Cert.branch [Cert.leaf])), (Cert.move 2 (Cert.branch [Cert.leaf]))])), (Cert.move 6 (Cert.branch [(Cert.move 7 (Cert.branch [Cert.leaf])), (Cert.move 1 (Cert.branch [Cert.leaf])), (Cert.move 1 (Cert.branch [Cert.leaf]))])), (Cert.move 2 (Cert.branch [(Cert.move 7 (Cert.branch [Cert.leaf])), (Cert.move 1 Cert.leaf), (Cert.move 1 Cert.leaf)])), (Cert.move 1 (Cert.branch [(Cert.move 6 (Cert.branch [Cert.leaf])), (Cert.move 2 Cert.leaf), (Cert.move 2 Cert.leaf)])), (Cert.move 1 (Cert.branch [(Cert.move 6 (Cert.branch [Cert.leaf])), (Cert.move 2 Cert.leaf), (Cert.move 2 Cert.leaf)]))])), (Cert.move 3 (Cert.branch [(Cert.move 6 Cert.leaf), (Cert.move 6 Cert.leaf), (Cert.move 2 (Cert.branch [(Cert.move 7 (Cert.branch [Cert.leaf])), (Cert.move 1 Cert.leaf), (Cert.move 1 Cert.leaf)])), (Cert.move 1 (Cert.branch [(Cert.move 6 Cert.leaf), (Cert.move 2 Cert.leaf), (Cert.move 2 Cert.leaf)])), (Cert.move 2 (Cert.branch [(Cert.move 6 Cert.leaf), (Cert.move 1 Cert.leaf), (Cert.move 1 Cert.leaf)]))])), (Cert.move 2 (Cert.branch [(Cert.move 7 (Cert.branch [(Cert.move 5 (Cert.branch [Cert.leaf])), (Cert.move 3 (Cert.branch [Cert.leaf])), (Cert.move 3 (Cert.branch [Cert.leaf]))])), (Cert.move 1 Cert.leaf), (Cert.move 1 Cert.leaf), (Cert.move 1 Cert.leaf), (Cert.move 1 Cert.leaf)])), (Cert.move 1 (Cert.branch [(Cert.move 6 (Cert.branch [(Cert.move 5 (Cert.branch [Cert.leaf])), (Cert.move 3 Cert.leaf), (Cert.move 3 Cert.leaf)])), (Cert.move 2 Cert.leaf), (Cert.move 2 Cert.leaf), (Cert.move 2 Cert.leaf), (Cert.move 2 Cert.leaf)])), (Cert.move 2 (Cert.branch [(Cert.move 7 (Cert.branch [(Cert.move 5 (Cert.branch [Cert.leaf])), (Cert.move 3 (Cert.branch [Cert.leaf])), (Cert.move 3 (Cert.branch [Cert.leaf]))])), (Cert.move 1 Cert.leaf), (Cert.move 1 Cert.leaf), (Cert.move 1 Cert.leaf), (Cert.move 1 Cert.leaf)]))])), (Cert.move 2 (Cert.branch [(Cert.move 3 (Cert.branch [(Cert.move 4 (Cert.branch [(Cert.move 7 (Cert.branch [Cert.leaf])), (Cert.move 6 Cert.leaf), (Cert.move 6 Cert.leaf)])), (Cert.move 8 (Cert.branch [(Cert.move 7 (Cert.branch [Cert.leaf])), (Cert.move 1 (Cert.branch [Cert.leaf])), (Cert.move 1 (Cert.branch [Cert.leaf]))])), (Cert.move 4 (Cert.branch [(Cert.move 7 (Cert.branch [Cert.leaf])), (Cert.move 8 (Cert.branch [Cert.leaf])), (Cert.move 7 (Cert.branch [Cert.leaf]))])), (Cert.move 4 (Cert.branch [(Cert.move 6 Cert.leaf), (Cert.move 8 (Cert.branch [Cert.leaf])), (Cert.move 6 Cert.leaf)])), (Cert.move 4 (Cert.branch [(Cert.move 6 Cert.leaf), (Cert.move 7 (Cert.branch [Cert.leaf])), (Cert.move 6 Cert.leaf)]))])), (Cert.move 3 (Cert.branch [(Cert.move 4 (Cert.branch [(Cert.move 7 (Cert.branch [Cert.leaf])), (Cert.move 6 Cert.leaf), (Cert.move 6 Cert.leaf)])), (Cert.move 7 (Cert.branch [(Cert.move 8 (Cert.branch [Cert.leaf])), (Cert.move 0 (Cert.branch [Cert.leaf])), (Cert.move 0 (Cert.branch [Cert.leaf]))])), (Cert.move 4 (Cert.branch [(Cert.move 7 (Cert.branch [Cert.leaf])), (Cert.move 8 (Cert.branch [Cert.leaf])), (Cert.move 7 (Cert.branch [Cert.leaf]))])), (Cert.move 4 (Cert.branch [(Cert.move 6 Cert.leaf), (Cert.move 8 (Cert.branch [Cert.leaf])), (Cert.move 6 Cert.leaf)])), (Cert.move 0 (Cert.branch [(Cert.move 6 Cert.leaf), (Cert.move 7 (Cert.branch [Cert.leaf])), (Cert.move 6 Cert.leaf)]))])), (Cert.move 4 (Cert.branch [(Cert.move 6 Cert.leaf), (Cert.move 0 (Cert.branch [(Cert.move 7 (Cert.branch [Cert.leaf])), (Cert.move 6 Cert.leaf), (Cert.move 6 Cert.leaf)])), (Cert.move 0 (Cert.branch [(Cert.move 7 (Cert.branch [Cert.leaf])), (Cert.move 1 Cert.leaf), (Cert.move 1 Cert.leaf)])), (Cert.move 0 (Cert.branch [(Cert.move 6 Cert.leaf), (Cert.move 1 Cert.leaf), (Cert.move 1 Cert.leaf)])), (Cert.move 0 (Cert.branch [(Cert.move 6 Cert.leaf), (Cert.move 1 Cert.leaf), (Cert.move 1 Cert.leaf)]))])), (Cert.move 3 (Cert.branch [(Cert.move 8 (Cert.branch [(Cert.move 7 (Cert.branch [Cert.leaf])), (Cert.move 1 (Cert.branch [Cert.leaf])), (Cert.move 1 (Cert.branch [Cert.leaf]))])), (Cert.move 7 (Cert.branch [(Cert.move 8 (Cert.branch [Cert.leaf])), (Cert.move 0 (Cert.branch [Cert.leaf])), (Cert.move 0 (Cert.branch [Cert.leaf]))])), (Cert.move 0 (Cert.branch [(Cert.move 7 (Cert.branch [Cert.leaf])), (Cert.move 1 Cert.leaf), (Cert.move 1 Cert.leaf)])), (Cert.move 1 (Cert.branch [(Cert.move 8 (Cert.branch [Cert.leaf])), (Cert.move 0 Cert.leaf), (Cert.move 0 Cert.leaf)])), (Cert.move 0 (Cert.branch [(Cert.move 6 Cert.leaf), (Cert.move 1 Cert.leaf), (Cert.move 1 Cert.leaf)]))])), (Cert.move 0 (Cert.branch [(Cert.move 4 (Cert.branch [(Cert.move 7 (Cert.branch [Cert.leaf])), (Cert.move 8 Cert.leaf), (Cert.move 7 (Cert.branch [Cert.leaf]))])), (Cert.move 1 Cert.leaf), (Cert.move 1 Cert.leaf), (Cert.move 1 Cert.leaf), (Cert.move 1 Cert.leaf)])), (Cert.move 0 (Cert.branch [(Cert.move 4 (Cert.branch [(Cert.move 6 Cert.leaf), (Cert.move 8 Cert.leaf), (Cert.move 6 Cert.leaf)])), (Cert.move 1 Cert.leaf), (Cert.move 1 Cert.leaf), (Cert.move 1 Cert.leaf), (Cert.move 1 Cert.leaf)])), (Cert.move 0 (Cert.branch [(Cert.move 3 (Cert.branch [(Cert.move 6 Cert.leaf), (Cert.move 7 (Cert.branch [Cert.leaf])), (Cert.move 6 Cert.leaf)])), (Cert.move 1 Cert.leaf), (Cert.move 1 Cert.leaf), (Cert.move 1 Cert.leaf), (Cert.move 1 Cert.leaf)]))])), (Cert.move 4 (Cert.branch [(Cert.move 3 (Cert.branch [(Cert.move 2 (Cert.branch [(Cert.move 7 (Cert.branch [Cert.leaf])), (Cert.move 5 Cert.leaf), (Cert.move 5 Cert.leaf)])), (Cert.move 1 (Cert.branch [(Cert.move 7 Cert.leaf), (Cert.move 5 Cert.leaf), (Cert.move 5 Cert.leaf)])), (Cert.move 1 (Cert.branch [(Cert.move 7 Cert.leaf), (Cert.move 8 (Cert.branch [Cert.leaf])), (Cert.move 7 Cert.leaf)])), (Cert.move 5 Cert.leaf), (Cert.move 5 Cert.leaf)])), (Cert.move 0 (Cert.branch [(Cert.move 3 (Cert.branch [(Cert.move 8 Cert.leaf), (Cert.move 5 Cert.leaf), (Cert.move 5 Cert.leaf)])), (Cert.move 2 (Cert.branch [(Cert.move 7 (Cert.branch [Cert.leaf])), (Cert.move 8 Cert.leaf), (Cert.move 7 (Cert.branch [Cert.leaf]))])), (Cert.move 2 (Cert.branch [(Cert.move 7 (Cert.branch [Cert.leaf])), (Cert.move 8 Cert.leaf), (Cert.move 7 (Cert.branch [Cert.leaf]))])), (Cert.move 8 Cert.leaf), (Cert.move 7 (Cert.branch [(Cert.move 5 (Cert.branch [Cert.leaf])), (Cert.move 2 (Cert.branch [Cert.leaf])), (Cert.move 2 (Cert.branch [Cert.leaf]))]))])), (Cert.move 1 (Cert.branch [(Cert.move 3 (Cert.branch [(Cert.move 7 Cert.leaf), (Cert.move 5 Cert.leaf), (Cert.move 5 Cert.leaf)])), (Cert.move 0 (Cert.branch [(Cert.move 7 Cert.leaf), (Cert.move 8 Cert.leaf), (Cert.move 7 Cert.leaf)])), (Cert.move 7 Cert.leaf), (Cert.move 8 (Cert.branch [(Cert.move 3 (Cert.branch [Cert.leaf])), (Cert.move 0 Cert.leaf), (Cert.move 0 Cert.leaf)])), (Cert.move 7 Cert.leaf)])), (Cert.move 0 (Cert.branch [(Cert.move 2 (Cert.branch [(Cert.move 7 (Cert.branch [Cert.leaf])), (Cert.move 8 Cert.leaf), (Cert.move 7 (Cert.branch [Cert.leaf]))])), (Cert.move 1 (Cert.branch [(Cert.move 7 Cert.leaf), (Cert.move 8 Cert.leaf), (Cert.move 7 Cert.leaf)])), (Cert.move 1 (Cert.branch [(Cert.move 7 Cert.leaf), (Cert.move 2 Cert.leaf), (Cert.move 2 Cert.leaf)])), (Cert.move 8 Cert.leaf), (Cert.move 7 (Cert.branch [(Cert.move 2 (Cert.branch [Cert.leaf])), (Cert.move 1 Cert.leaf), (Cert.move 1 Cert.leaf)]))])), (Cert.move 1 (Cert.branch [(Cert.move 3 (Cert.branch [(Cert.move 7 Cert.leaf), (Cert.move 8 (Cert.branch [Cert.leaf])), (Cert.move 7 Cert.leaf)])), (Cert.move 7 Cert.leaf), (Cert.move 0 (Cert.branch [(Cert.move 7 Cert.leaf), (Cert.move 2 Cert.leaf), (Cert.move 2 Cert.leaf)])), (Cert.move 8 (Cert.branch [(Cert.move 3 (Cert.branch [Cert.leaf])), (Cert.move 0 Cert.leaf), (Cert.move 0 Cert.leaf)])), (Cert.move 7 Cert.leaf)])), (Cert.move 8 (Cert.branch [(Cert.move 3 (Cert.branch [(Cert.move 2 (Cert.branch [Cert.leaf])), (Cert.move 1 (Cert.branch [Cert.leaf])), (Cert.move 1 (Cert.branch [Cert.leaf]))])), (Cert.move 0 Cert.leaf), (Cert.move 0 Cert.leaf), (Cert.move 0 Cert.leaf), (Cert.move 0 Cert.leaf)])), (Cert.move 7 (Cert.branch [(Cert.move 1 Cert.leaf), (Cert.move 0 (Cert.branch [(Cert.move 5 (Cert.branch [Cert.leaf])), (Cert.move 2 (Cert.branch [Cert.leaf])), (Cert.move 2 (Cert.branch [Cert.leaf]))])), (Cert.move 1 Cert.leaf), (Cert.move 0 (Cert.branch [(Cert.move 2 (Cert.branch [Cert.leaf])), (Cert.move 1 Cert.leaf), (Cert.move 1 Cert.leaf)])), (Cert.move 1 Cert.leaf)]))])), (Cert.move 1 (Cert.branch [(Cert.move 6 (Cert.branch [(Cert.move 4 (Cert.branch [(Cert.move 5 (Cert.branch [Cert.leaf])), (Cert.move 8 (Cert.branch [Cert.leaf])), (Cert.move 5 (Cert.branch [Cert.leaf]))])), (Cert.move 4 (Cert.branch [(Cert.move 5 (Cert.branch [Cert.leaf])), (Cert.move 2 Cert.leaf), (Cert.move 2 Cert.leaf)])), (Cert.move 8 (Cert.branch [(Cert.move 3 (Cert.branch [Cert.leaf])), (Cert.move 5 (Cert.branch [Cert.leaf])), (Cert.move 3 (Cert.branch [Cert.leaf]))])), (Cert.move 4 (Cert.branch [(Cert.move 8 (Cert.branch [Cert.leaf])), (Cert.move 2 Cert.leaf), (Cert.move 2 Cert.leaf)])), (Cert.move 4 (Cert.branch [(Cert.move 5 (Cert.branch [Cert.leaf])), (Cert.move 2 Cert.leaf), (Cert.move 2 Cert.leaf)]))])), (Cert.move 6 (Cert.branch [(Cert.move 4 (Cert.branch [(Cert.move 5 (Cert.branch [Cert.leaf])), (Cert.move 8 (Cert.branch [Cert.leaf])), (Cert.move 5 (Cert.branch [Cert.leaf]))])), (Cert.move 4 (Cert.branch [(Cert.move 5 (Cert.branch [Cert.leaf])), (Cert.move 8 (Cert.branch [Cert.leaf])), (Cert.move 5 (Cert.branch [Cert.leaf]))])), (Cert.move 0 (Cert.branch [(Cert.move 5 (Cert.branch [Cert.leaf])), (Cert.move 3 Cert.leaf), (Cert.move 3 Cert.leaf)])), (Cert.move 8 (Cert.branch [(Cert.move 3 (Cert.branch [Cert.leaf])), (Cert.move 4 (Cert.branch [Cert.leaf])), (Cert.move 3 (Cert.branch [Cert.leaf]))])), (Cert.move 5 (Cert.branch [(Cert.move 4 (Cert.branch [Cert.leaf])), (Cert.move 0 (Cert.branch [Cert.leaf])), (Cert.move 0 (Cert.branch [Cert.leaf]))]))])), (Cert.move 6 (Cert.branch [(Cert.move 4 (Cert.branch [(Cert.move 5 (Cert.branch [Cert.leaf])), (Cert.move 2 Cert.leaf), (Cert.move 2 Cert.leaf)])), (Cert.move 4 (Cert.branch [(Cert.move 5 (Cert.branch [Cert.leaf])), (Cert.move 8 (Cert.branch [Cert.leaf])), (Cert.move 5 (Cert.branch [Cert.leaf]))])), (Cert.move 5 (Cert.branch [(Cert.move 8 (Cert.branch [Cert.leaf])), (Cert.move 0 (Cert.branch [Cert.leaf])), (Cert.move 0 (Cert.branch [Cert.leaf]))])), (Cert.move 4 (Cert.branch [(Cert.move 2 Cert.leaf), (Cert.move 8 (Cert.branch [Cert.leaf])), (Cert.move 2 Cert.leaf)])), (Cert.move 0 (Cert.branch [(Cert.move 5 (Cert.branch [Cert.leaf])), (Cert.move 2 Cert.leaf), (Cert.move 2 Cert.leaf)]))])), (Cert.move 0 (Cert.branch [(Cert.move 6 (Cert.branch [(Cert.move 5 (Cert.branch [Cert.leaf])), (Cert.move 3 Cert.leaf), (Cert.move 3 Cert.leaf)])), (Cert.move 2 Cert.leaf), (Cert.move 2 Cert.leaf), (Cert.move 2 Cert.leaf), (Cert.move 2 Cert.leaf)])), (Cert.move 6 (Cert.branch [(Cert.move 4 (Cert.branch [(Cert.move 8 (Cert.branch [Cert.leaf])), (Cert.move 2 Cert.leaf), (Cert.move 2 Cert.leaf)])), (Cert.move 8 (Cert.branch [(Cert.move 3 (Cert.branch [Cert.leaf])), (Cert.move 4 (Cert.branch [Cert.leaf])), (Cert.move 3 (Cert.branch [Cert.leaf]))])), (Cert.move 4 (Cert.branch [(Cert.move 2 Cert.leaf), (Cert.move 8 (Cert.branch [Cert.leaf])), (Cert.move 2 Cert.leaf)])), (Cert.move 3 (Cert.branch [(Cert.move 8 (Cert.branch [Cert.leaf])), (Cert.move 0 Cert.leaf), (Cert.move 0 Cert.leaf)])), (Cert.move 2 (Cert.branch [(Cert.move 4 Cert.leaf), (Cert.move 0 Cert.leaf), (Cert.move 0 Cert.leaf)]))])), (Cert.move 8 (Cert.branch [(Cert.move 3 (Cert.branch [(Cert.move 4 (Cert.branch [Cert.leaf])), (Cert.move 2 (Cert.branch [Cert.leaf])), (Cert.move 2 (Cert.branch [Cert.leaf]))])), (Cert.move 4 (Cert.branch [(Cert.move 3 (Cert.branch [Cert.leaf])), (Cert.move 0 Cert.leaf), (Cert.move 0 Cert.leaf)])), (Cert.move 0 (Cert.branch [(Cert.move 4 Cert.leaf), (Cert.move 2 Cert.leaf), (Cert.move 2 Cert.leaf)])), (Cert.move 2 (Cert.branch [(Cert.move 3 (Cert.branch [Cert.leaf])), (Cert.move 0 Cert.leaf), (Cert.move 0 Cert.leaf)])), (Cert.move 0 (Cert.branch [(Cert.move 4 Cert.leaf), (Cert.move 2 Cert.leaf), (Cert.move 2 Cert.leaf)]))])), (Cert.move 6 (Cert.branch [(Cert.move 4 (Cert.branch [(Cert.move 5 (Cert.branch [Cert.leaf])), (Cert.move 2 Cert.leaf), (Cert.move 2 Cert.leaf)])), (Cert.move 5 (Cert.branch [(Cert.move 4 (Cert.branch [Cert.leaf])), (Cert.move 0 (Cert.branch [Cert.leaf])), (Cert.move 0 (Cert.branch [Cert.leaf]))])), (Cert.move 0 (Cert.branch [(Cert.move 5 (Cert.branch [Cert.leaf])), (Cert.move 2 Cert.leaf), (Cert.move 2 Cert.leaf)])), (Cert.move 0 (Cert.branch [(Cert.move 3 Cert.leaf), (Cert.move 2 Cert.leaf), (Cert.move 2 Cert.leaf)])), (Cert.move 2 (Cert.branch [(Cert.move 4 Cert.leaf), (Cert.move 0 Cert.leaf), (Cert.move 0 Cert.leaf)]))]))])), (Cert.move 4 (Cert.branch [(Cert.move 1 (Cert.branch [(Cert.move 5 (Cert.branch [(Cert.move 6 (Cert.branch [Cert.leaf])), (Cert.move 3 Cert.leaf), (Cert.move 3 Cert.leaf)])), (Cert.move 6 (Cert.branch [(Cert.move 5 (Cert.branch [Cert.leaf])), (Cert.move 2 Cert.leaf), (Cert.move 2 Cert.leaf)])), (Cert.move 2 (Cert.branch [(Cert.move 6 Cert.leaf), (Cert.move 7 Cert.leaf), (Cert.move 6 Cert.leaf)])), (Cert.move 7 Cert.leaf), (Cert.move 6 (Cert.branch [(Cert.move 5 (Cert.branch [Cert.leaf])), (Cert.move 2 Cert.leaf), (Cert.move 2 Cert.leaf)]))])), (Cert.move 0 (Cert.branch [(Cert.move 5 (Cert.branch [(Cert.move 6 (Cert.branch [Cert.leaf])), (Cert.move 3 Cert.leaf), (Cert.move 3 Cert.leaf)])), (Cert.move 2 (Cert.branch [(Cert.move 6 Cert.leaf), (Cert.move 7 (Cert.branch [Cert.leaf])), (Cert.move 6 Cert.leaf)])), (Cert.move 2 (Cert.branch [(Cert.move 6 Cert.leaf), (Cert.move 7 (Cert.branch [Cert.leaf])), (Cert.move 6 Cert.leaf)])), (Cert.move 7 (Cert.branch [(Cert.move 5 (Cert.branch [Cert.leaf])), (Cert.move 2 (Cert.branch [Cert.leaf])), (Cert.move 2 (Cert.branch [Cert.leaf]))])), (Cert.move 6 (Cert.branch [(Cert.move 3 Cert.leaf), (Cert.move 2 Cert.leaf), (Cert.move 2 Cert.leaf)]))])), (Cert.move 5 (Cert.branch [(Cert.move 1 (Cert.branch [(Cert.move 6 (Cert.branch [Cert.leaf])), (Cert.move 3 Cert.leaf), (Cert.move 3 Cert.leaf)])), (Cert.move 0 (Cert.branch [(Cert.move 6 (Cert.branch [Cert.leaf])), (Cert.move 3 Cert.leaf), (Cert.move 3 Cert.leaf)])), (Cert.move 0 (Cert.branch [(Cert.move 6 (Cert.branch [Cert.leaf])), (Cert.move 7 (Cert.branch [Cert.leaf])), (Cert.move 6 (Cert.branch [Cert.leaf]))])), (Cert.move 3 Cert.leaf), (Cert.move 3 Cert.leaf)])), (Cert.move 0 (Cert.branch [(Cert.move 2 (Cert.branch [(Cert.move 6 Cert.leaf), (Cert.move 7 (Cert.branch [Cert.leaf])), (Cert.move 6 Cert.leaf)])), (Cert.move 5 (Cert.branch [(Cert.move 6 (Cert.branch [Cert.leaf])), (Cert.move 7 (Cert.branch [Cert.leaf])), (Cert.move 6 (Cert.branch [Cert.leaf]))])), (Cert.move 2 (Cert.branch [(Cert.move 6 Cert.leaf), (Cert.move 1 Cert.leaf), (Cert.move 1 Cert.leaf)])), (Cert.move 7 (Cert.branch [(Cert.move 2 (Cert.branch [Cert.leaf])), (Cert.move 1 Cert.leaf), (Cert.move 1 Cert.leaf)])), (Cert.move 6 (Cert.branch [(Cert.move 2 Cert.leaf), (Cert.move 5 (Cert.branch [Cert.leaf])), (Cert.move 2 Cert.leaf)]))])), (Cert.move 2 (Cert.branch [(Cert.move 1 (Cert.branch [(Cert.move 6 Cert.leaf), (Cert.move 7 Cert.leaf), (Cert.move 6 Cert.leaf)])), (Cert.move 0 (Cert.branch [(Cert.move 6 Cert.leaf), (Cert.move 7 (Cert.branch [Cert.leaf])), (Cert.move 6 Cert.leaf)])), (Cert.move 0 (Cert.branch [(Cert.move 6 Cert.leaf), (Cert.move 1 Cert.leaf), (Cert.move 1 Cert.leaf)])), (Cert.move 7 (Cert.branch [(Cert.move 1 Cert.leaf), (Cert.move 0 (Cert.branch [Cert.leaf])), (Cert.move 0 (Cert.branch [Cert.leaf]))])), (Cert.move 6 Cert.leaf)])), (Cert.move 7 (Cert.branch [(Cert.move 1 Cert.leaf), (Cert.move 0 (Cert.branch [(Cert.move 5 (Cert.branch [Cert.leaf])), (Cert.move 2 (Cert.branch [Cert.leaf])), (Cert.move 2 (Cert.branch [Cert.leaf]))])), (Cert.move 1 Cert.leaf), (Cert.move 0 (Cert.branch [(Cert.move 2 (Cert.branch [Cert.leaf])), (Cert.move 1 Cert.leaf), (Cert.move 1 Cert.leaf)])), (Cert.move 1 Cert.leaf)])), (Cert.move 6 (Cert.branch [(Cert.move 1 (Cert.branch [(Cert.move 5 (Cert.branch [Cert.leaf])), (Cert.move 2 Cert.leaf), (Cert.move 2 Cert.leaf)])), (Cert.move 0 (Cert.branch [(Cert.move 3 Cert.leaf), (Cert.move 2 Cert.leaf), (Cert.move 2 Cert.leaf)])), (Cert.move 5 (Cert.branch [(Cert.move 1 (Cert.branch [Cert.leaf])), (Cert.move 0 (Cert.branch [Cert.leaf])), (Cert.move 0 (Cert.branch [Cert.leaf]))])), (Cert.move 0 (Cert.branch [(Cert.move 2 Cert.leaf), (Cert.move 5 (Cert.branch [Cert.leaf])), (Cert.move 2 Cert.leaf)])), (Cert.move 2 Cert.leaf)]))]))])

/-- The generation state after 4 rounds (checked by evaluation below). -/
def genMid4 : GenState :=
  ⟨47764490231520151408157181409722476024850172647759294263395031729686406548717549305015764511762049914195420782657388637078697525126093059763979304225400870233277690948474358142986072868281227006962535310100671935703984654335271795628027627759862413079616800944460765360367181238408550619727269633113370937379356161485727462156097262372920898510987913388283981092459672858157213435483561939823343400694204603747686948084575962899973977746589068352825169434145681778025807388808190111530517481136515189296301291855361903137889309618295994818916248078555208300265254927047629774826043155948402899459043341783618039421103466733384521022250130727532452529057697583013168522820686192869479645427829350241875150258964552040744562293751718947619635592872724813359584255985034272073134973347939258989041908781854919752370071127123181826262862689994602318604003089445307350868670201212344885879036007444669157737095344107036361202094064946978587376857687171570956382948402183685638126494338225129856792937172391318004222815560007239253244682880930825858042300420007726766402312578379559911999621303591539587213137175034722796385471381943202487825786347587466527980600713660030353014023991261319362847438503999180217894500717499811689671098360378748810031659480378169428691387110754742634129678245911703397106132473781049273988883520040681896020278862895893953845849907132284308173435382669035104426223957566637025167386099438129418862750965313077694436887288894864572692727296282503691455043829058585815861245058028625293004477141694148103899547693821215303081270757662635279314495840681098216349731025350229909531404154397083267260013350892867952732497768403148631269374829288161497153758968370815005972577531067571907327679521658163281505382447879243882235367054227572603238439612142209628413730317193350082500500308932887245604803066753115392473622731039400591801747042877363528410347011998471091207359615907360037917610858354018230536235359087862597726453733215238283601663064026265642000076934124197453255888179852520270713534900892847226030281342794392228316112350157797558915609837245032056683455899100411650397799012334838948197507950387495056459435964817667452940848482412744356853996826774611157569298780100224516585631932944753455221865979540840238487236454732621839543714841376635165203751113116968462721480295446040869843969017375953488629819537965419113599873191663843069672920363675359573850894199478060778784901291,
  [0, 6561, 2187, 81, 10935, 8019, 6723, 6615, 6563, 15309, 2673, 2349, 2205, 2193, 13203, 4455, 11664, 11178, 11016, 10962, 10944, 10938, 10936, 10206, 8262, 8100, 8046, 8028, 8022, 8020, 8910, 7452, 6750, 6724, 8802, 6858, 6696, 6624, 6618, 8750, 6644, 6590, 15552, 15390, 15336, 15312, 2754, 2700, 2676, 2592, 2352, 2286, 2232, 2274, 12150, 11826, 11682, 11670, 12636, 11340, 11232, 11196, 11184, 11180, 12474, 11502, 11070, 11034, 11022, 11018, 12420, 11448, 11124, 10980, 10968, 10964, 12402, 11106, 10998, 10950, 10946, 12396, 11100, 10992, 10956, 10940, 12394, 11422, 11098, 10990, 10954, 10942, 10368, 10260, 10224, 10212, 10208, 8424, 8316, 8268, 8264, 8154, 8118, 8106, 8102, 8208, 8064, 8052, 8048, 8190, 8082, 8030, 8184, 8076, 8024, 8182, 8038, 8964, 8916, 8912, 7458, 6756, 6752, 8808, 8804, 6860, 6702, 6698, 6620, 17010, 15714, 15606, 15554, 16848, 15876, 15444, 15408, 15396, 15392, 15822, 15498, 15354, 15342, 15338, 16770, 15798, 15474, 15366, 15330, 15314, 2808, 2772, 2760, 2756, 2862, 2718, 2706, 2838, 2730, 2594, 2292, 2288],
  [12150, 11826, 11682, 11670, 12636, 11340, 11232, 11196, 11184, 11180, 12474, 11502, 11070, 11034, 11022, 11018, 12420, 11448, 11124, 10980, 10968, 10964, 12402, 11106, 10998, 10950, 10946, 12396, 11100, 10992, 10956, 10940, 12394, 11422, 11098, 10990, 10954, 10942, 10368, 10260, 10224, 10212, 10208, 8424, 8316, 8268, 8264, 8154, 8118, 8106, 8102, 8208, 8064, 8052, 8048, 8190, 8082, 8030, 8184, 8076, 8024, 8182, 8038, 8964, 8916, 8912, 7458, 6756, 6752, 8808, 8804, 6860, 6702, 6698, 6620, 17010, 15714, 15606, 15554, 16848, 15876, 15444, 15408, 15396, 15392, 15822, 15498, 15354, 15342, 15338, 16770, 15798, 15474, 15366, 15330, 15314, 2808, 2772, 2760, 2756, 2862, 2718, 2706, 2838, 2730, 2594, 2292, 2288]⟩

/-- The generation state after 5 rounds (checked by evaluation below). -/
def genMid5 : GenState :=
  ⟨2637267167693662202471492409512675634547246539756888148816312168611713759629774455895011281810573970393422265720272218738159983602619730381292622344665039054939026471546700421475058165842377041269401212776599026770640439397070967729108152890515037368078307994165821392468891353198746526629021134238452187754568038122889834619338597920773895730620967429407817588929393059492268365376138853222947844886922244203392736435429523203153036403157563494840188161939102703257911415353873409885163805195841362196832841052293158899878442663917702087577152088627779546951765831248130868867385385220298116104217113903262681693377814703578552937577877824857038483885578383087949855902140721685572801202347899043858499563568757367166176374531335618926747720697382047800345785706907868205240951697392799164011084478729924049446972155912427603357468468622760999539912890509461901140760752762799435815033653831431804633696867724872120598553072018621977572549322559790475847558094345516222178876391119680020712466050503805249425493896560284990570521681469079870292413156831950806744680222924899563888882530311720570052937496143832898921059143151804436276108272739605849807324585193841766172183328419058105885703925099898310662457024466916652923277272596981865321655955889267511021746578174649481305942048814035571225792233594591790110257034078576023510992020111820426641144248431868239662247855724298941157617216003316111366548033574369647708537782214542067918873007965678417865918737792621699657006726252535917438043188644049272213499369239620997633899325750219205955354181060209229920560183005828853491040289414815353512860239441082424142162950556212841273084128956490344509832266832990492597876255408177402622855555495649094314480914417363542439966264215839720582130263343442304006897418324939662019378663941824864553921673532989568529561548977344229975431376696594497720465816758749667404472196974421380495006699623440577159184076786065579263641025701245163282551379144485698074832688793020536402893437066814379653276903292886750293969073746696063722183570555995338956962612353792969285991726258625459760151195008587838808002196939821292487833025051713458437061386722037594149411405265905096021479646962898275146209586402068644499893484988567275801747750972897322357377317901957850863693950038205611835888454788672911551955422658339689306121716507001138298139998430759891126213850693303248086679422231314891695787262621316284297272163680088858677525340841354546709197701873680213270075638145280269994772651,
  [0, 6561, 2187, 81, 10935, 8019, 6723, 6615, 6563, 15309, 2673, 2349, 2205, 2193, 13203, 4455, 11664, 11178, 11016, 10962, 10944, 10938, 10936, 10206, 8262, 8100, 8046, 8028, 8022, 8020, 8910, 7452, 6750, 6724, 8802, 6858, 6696, 6624, 6618, 8750, 6644, 6590, 15552, 15390, 15336, 15312, 2754, 2700, 2676, 2592, 2352, 2286, 2232, 2274, 12150, 11826, 11682, 11670, 12636, 11340, 11232, 11196, 11184, 11180, 12474, 11502, 11070, 11034, 11022, 11018, 12420, 11448, 11124, 10980, 10968, 10964, 12402, 11106, 10998, 10950, 10946, 12396, 11100, 10992, 10956, 10940, 12394, 11422, 11098, 10990, 10954, 10942, 10368, 10260, 10224, 10212, 10208, 8424, 8316, 8268, 8264, 8154, 8118, 8106, 8102, 8208, 8064, 8052, 8048, 8190, 8082, 8030, 8184, 8076, 8024, 8182, 8038, 8964, 8916, 8912, 7458, 6756, 6752, 8808, 8804, 6860, 6702, 6698, 6620, 17010, 15714, 15606, 15554, 16848, 15876, 15444, 15408, 15396, 15392, 15822, 15498, 15354, 15342, 15338, 16770, 15798, 15474, 15366, 15330, 15314, 2808, 2772, 2760, 2756, 2862, 2718, 2706, 2838, 2730, 2594, 2292, 2288, 12231, 12177, 12159, 12153, 12151, 12069, 11835, 11829, 11925, 11763, 11709, 11685, 11683, 11913, 11751, 11679, 12717, 12663, 12639, 12637, 11367, 11343, 11341, 11313, 11235, 11233, 11277, 11223, 11199, 11197, 11265, 11211, 11185, 11261, 11207, 11183, 12501, 12483, 12477, 11529, 11079, 11073, 11061, 11037, 11049, 11031, 11045, 11027, 11021, 12429, 12423, 12421, 11451, 11449, 11133, 11127, 11125, 10983, 10981, 10977, 10973, 10967, 12405, 12403, 11109, 11107, 11001, 10999, 10949, 12397, 11101, 10957, 10611, 10395, 10377, 10371, 10369, 10503, 10341, 10269, 10263, 10467, 10305, 10251, 10227, 10225, 10455, 10293, 10239, 10451, 10289, 10235, 10217, 10211, 8451, 8427, 8425, 8397, 8319, 8349, 8295, 8345, 8291, 8267, 8163, 8157, 8145, 8133, 8129, 8111, 8105, 8217, 8211, 8067, 8057, 8051, 8193, 8191, 8085, 9207, 8973, 8967, 8943, 9155, 8939, 8915, 6755, 9051, 8889, 9047, 8885, 8807, 6941, 6863, 6701, 17091, 17037, 17013, 15741, 15687, 15609, 15635, 15581, 15903, 15435, 15423, 15419, 15825, 15501, 15357, 2799, 2787, 2865],
  [12231, 12177, 12159, 12153, 12151, 12069, 11835, 11829, 11925, 11763, 11709, 11685, 11683, 11913, 11751, 11679, 12717, 12663, 12639, 12637, 11367, 11343, 11341, 11313, 11235, 11233, 11277, 11223, 11199, 11197, 11265, 11211, 11185, 11261, 11207, 11183, 12501, 12483, 12477, 11529, 11079, 11073, 11061, 11037, 11049, 11031, 11045, 11027, 11021, 12429, 12423, 12421, 11451, 11449, 11133, 11127, 11125, 10983, 10981, 10977, 10973, 10967, 12405, 12403, 11109, 11107, 11001, 10999, 10949, 12397, 11101, 10957, 10611, 10395, 10377, 10371, 10369, 10503, 10341, 10269, 10263, 10467, 10305, 10251, 10227, 10225, 10455, 10293, 10239, 10451, 10289, 10235, 10217, 10211, 8451, 8427, 8425, 8397, 8319, 8349, 8295, 8345, 8291, 8267, 8163, 8157, 8145, 8133, 8129, 8111, 8105, 8217, 8211, 8067, 8057, 8051, 8193, 8191, 8085, 9207, 8973, 8967, 8943, 9155, 8939, 8915, 6755, 9051, 8889, 9047, 8885, 8807, 6941, 6863, 6701, 17091, 17037, 17013, 15741, 15687, 15609, 15635, 15581, 15903, 15435, 15423, 15419, 15825, 15501, 15357, 2799, 2787, 2865]⟩

/-- The generation state after 6 rounds (checked by evaluation below). -/
def genMid6 : GenState :=
  ⟨30410573207575256137507027229526042827561166906976937070065046014366307135313767720562270884959536787959243950641062536195445395230781568693185752666334925368019309870272507216077174272857929687944026274877545087532003434832691684533202385777578611462772279733973739853195941802395052061917994286280448723060954905393866723703721473203504634049902711616234101293854029300921061113124193356867139541141573211469555317244649942590240727305940011406140396791152054853519228492323932667879901958386098686922413740961404495836648950991645570243958529293440777448996943801102880321435708064905308572880415640876374854224382861580403052930718342700288014164985412148843148898815277122474762630726236599043403787773804013801573833052557020548812299505668974363047492238460516538426010730358729220288546645097698636973271384687835927094071798883408063424682426957059983610645338536841099241202025224536232143421406169290819186847012265311979157585460772366413119874619988742363751539975956963993278557836909762829309220695308298282111786825651520264549322328731439897800073726601160779729427080819877684213773632654709445502242953867085426698801014223112004507154447666213574206803954762797586297565648148698926714510386848617659925447400759562999586069885443758128978575247085662331087044723683361417471937848119646369258804331132997467414354726798835727806115647020940663710889481442741699941093241777155181985180783281295040866595932127418905533558820339815370336951472735877696219287763812517859499205098351524083290786070164404055293303707440082042731175756319710100166735672020187426020086479623722664426993527086176221491360905332722941119347831530934403369372194375567863693522189701767854627608559048422375291460013627952962433466773939535368909947761706295829264800329036126666823928694820378941487979518805584536516787833290921982160507396464710036523660975106981993539816264806517110372633191193144157210787646651987780684033448494474260905155693399058705387808528739590977779954075010354504054629408711148707318729661650765971209757372850706980528834545325452052974582791168633552616255269254923662191940471015691919107333729987704553877449833715674001581058883453081044856398629629448363541922413793986656189797289213328401995508959364651291626191571128464864801784122639367237939855955714728526946593422687049639991733688418787620228453417990028980665027239582788075280326016847841009066825546766472550747813689767839869847737373054941989246407359121471726091225469557045896156134010359329401011384788524745086712366160709444246483006606708822032593819529658827632352731893343943950653792724925104042058216093476792402283741616629250429252753297000891373672951063548330568572433017937791671070123738795020629073075572977786988154745570328992260766834990840313097904769792763438578677438396240538834455914642717657630682099291552162729105274282142799828059991078429685635907339278948400352800009317443858841339661960703865935659979174399021976200036581936305118909909269763752756370190741260012020025567452217937766078780399045267499958045880825881937128400589819911125174028515395789939969150162052964199731920168892020164112741354151517706340523,
  [0, 6561, 2187, 81, 10935, 8019, 6723, 6615, 6563, 15309, 2673, 2349, 2205, 2193, 13203, 4455, 11664, 11178, 11016, 10962, 10944, 10938, 10936, 10206, 8262, 8100, 8046, 8028, 8022, 8020, 8910, 7452, 6750, 6724, 8802, 6858, 6696, 6624, 6618, 8750, 6644, 6590, 15552, 15390, 15336, 15312, 2754, 2700, 2676, 2592, 2352, 2286, 2232, 2274, 12150, 11826, 11682, 11670, 12636, 11340, 11232, 11196, 11184, 11180, 12474, 11502, 11070, 11034, 11022, 11018, 12420, 11448, 11124, 10980, 10968, 10964, 12402, 11106, 10998, 10950, 10946, 12396, 11100, 10992, 10956, 10940, 12394, 11422, 11098, 10990, 10954, 10942, 10368, 10260, 10224, 10212, 10208, 8424, 8316, 8268, 8264, 8154, 8118, 8106, 8102, 8208, 8064, 8052, 8048, 8190, 8082, 8030, 8184, 8076, 8024, 8182, 8038, 8964, 8916, 8912, 7458, 6756, 6752, 8808, 8804, 6860, 6702, 6698, 6620, 17010, 15714, 15606, 15554, 16848, 15876, 15444, 15408, 15396, 15392, 15822, 15498, 15354, 15342, 15338, 16770, 15798, 15474, 15366, 15330, 15314, 2808, 2772, 2760, 2756, 2862, 2718, 2706, 2838, 2730, 2594, 2292, 2288, 12231, 12177, 12159, 12153, 12151, 12069, 11835, 11829, 11925, 11763, 11709, 11685, 11683, 11913, 11751, 11679, 12717, 12663, 12639, 12637, 11367, 11343, 11341, 11313, 11235, 11233, 11277, 11223, 11199, 11197, 11265, 11211, 11185, 11261, 11207, 11183, 12501, 12483, 12477, 11529, 11079, 11073, 11061, 11037, 11049, 11031, 11045, 11027, 11021, 12429, 12423, 12421, 11451, 11449, 11133, 11127, 11125, 10983, 10981, 10977, 10973, 10967, 12405, 12403, 11109, 11107, 11001, 10999, 10949, 12397, 11101, 10957, 10611, 10395, 10377, 10371, 10369, 10503, 10341, 10269, 10263, 10467, 10305, 10251, 10227, 10225, 10455, 10293, 10239, 10451, 10289, 10235, 10217, 10211, 8451, 8427, 8425, 8397, 8319, 8349, 8295, 8345, 8291, 8267, 8163, 8157, 8145, 8133, 8129, 8111, 8105, 8217, 8211, 8067, 8057, 8051, 8193, 8191, 8085, 9207, 8973, 8967, 8943, 9155, 8939, 8915, 6755, 9051, 8889, 9047, 8885, 8807, 6941, 6863, 6701, 17091, 17037, 17013, 15741, 15687, 15609, 15635, 15581, 15903, 15435, 15423, 15419, 15825, 15501, 15357, 2799, 2787, 2865, 12285, 12249, 12237, 12233, 12339, 12195, 12183, 12179, 12321, 12213, 12161, 12315, 12207, 12171, 12155, 12313, 12169, 12157, 12087, 12071, 11837, 11847, 11931, 11927, 11769, 11765, 11715, 11687, 11689, 12771, 12735, 12723, 12719, 12825, 12681, 12669, 12665, 12801, 12693, 12657, 12641, 12799, 12691, 12655, 12643, 11385, 11369, 11397, 11361, 11345, 11395, 11359, 11331, 11319, 11315, 11253, 11237, 11251, 11239, 11283, 11279, 11229, 11225, 11201, 11203, 11267, 11213, 12987, 12519, 12507, 12503, 12537, 12489, 12485, 12963, 12531, 12495, 12479, 11535, 11531, 11085, 11081, 11091, 11075, 11067, 11063, 11039, 11051, 12591, 12435, 12431, 12909, 12585, 12441, 12425, 12907, 12583, 12439, 11613, 11453, 11611, 11467, 11135, 11145, 11129, 11143, 10985, 12567, 12459, 12407, 12565, 12457, 11163, 11111, 11161, 11003, 12559, 12415, 11119, 10665, 10617, 10613, 10401, 10397, 10431, 10379, 10425, 10373, 10521, 10509, 10359, 10347, 10281, 10469, 10311, 10307, 10257, 10253, 10229, 10457, 10295, 10241, 8457, 8453, 8481, 8429, 8403, 8351, 8297, 8175, 8147, 8135, 8219, 8213, 8069, 8247, 9213, 9209, 8969, 8945, 9053, 8891, 17145, 17109, 17097, 17093, 17199, 17055, 17043, 17175, 17067, 17015, 15747, 15693, 15689, 15611, 15909, 15905, 15441, 15437, 15987, 15519, 2805],
  [12285, 12249, 12237, 12233, 12339, 12195, 12183, 12179, 12321, 12213, 12161, 12315, 12207, 12171, 12155, 12313, 12169, 12157, 12087, 12071, 11837, 11847, 11931, 11927, 11769, 11765, 11715, 11687, 11689, 12771, 12735, 12723, 12719, 12825, 12681, 12669, 12665, 12801, 12693, 12657, 12641, 12799, 12691, 12655, 12643, 11385, 11369, 11397, 11361, 11345, 11395, 11359, 11331, 11319, 11315, 11253, 11237, 11251, 11239, 11283, 11279, 11229, 11225, 11201, 11203, 11267, 11213, 12987, 12519, 12507, 12503, 12537, 12489, 12485, 12963, 12531, 12495, 12479, 11535, 11531, 11085, 11081, 11091, 11075, 11067, 11063, 11039, 11051, 12591, 12435, 12431, 12909, 12585, 12441, 12425, 12907, 12583, 12439, 11613, 11453, 11611, 11467, 11135, 11145, 11129, 11143, 10985, 12567, 12459, 12407, 12565, 12457, 11163, 11111, 11161, 11003, 12559, 12415, 11119, 10665, 10617, 10613, 10401, 10397, 10431, 10379, 10425, 10373, 10521, 10509, 10359, 10347, 10281, 10469, 10311, 10307, 10257, 10253, 10229, 10457, 10295, 10241, 8457, 8453, 8481, 8429, 8403, 8351, 8297, 8175, 8147, 8135, 8219, 8213, 8069, 8247, 9213, 9209, 8969, 8945, 9053, 8891, 17145, 17109, 17097, 17093, 17199, 17055, 17043, 17175, 17067, 17015, 15747, 15693, 15689, 15611, 15909, 15905, 15441, 15437, 15987, 15519, 2805]⟩

/-- The generation state after 7 rounds (checked by evaluation below). -/
def genMid7 : GenState :=
  ⟨6716354001254064688003065769198860985494553093101542193616706380129167652673158856553301023033310139430316913530575933963510359484735900217940598807402868848009596733605556187595839479893561820466208824671923539814175754428025038399802776674056392375975769819753559183540711462411625744151960614519771368780315510476603710797947513836402157949118825226783710796621202541722729556020326016787969364138614365527749019423428683350121142952659377730104473164237198471286218204052063098725729593136103853496727656609390829106663764627921181464639627437761610506348725876895651183882333690843116809165426058539133457899787438110986511077608534555549812560493769864234637803871883368104096789772886445444088662960429701545670994826759131527309490525004791838937121862768217185153917053827424359793071164690438963985577535388398241736499779746820180254154621256626454890803174482595686192511811465062928781972293680909041510309235439013189383587053554377321536899973195745409635723756881995026142316230938970170238099227253134638406792642796413259766144923996277168975288810512620602044306475724413694967484841435125831878354560320966403557758537410492359666442045104408975832203935899052878619234108070980204909604803098326726504069529233974966037739790182708070457112501725260214255223922696616987498270900466003001141504783958847732027017668087525210876680350075704254913212103018892854728189675539367654369558065985377600175124206453901878620872696888782585823769145103012601533558474958798406174637518909735141945070056033845294110795426922712538080686730970047266902813752817221554993109588361254822325370331858841468091946444079399554939986964298079255061330730289827271948914178097507241117749252204100172570935499833901127479996306238345272612847574058280891585217000426028081679395843160998962881331957752717990050654549633719271546011362095996085482779824751717459257206794963947326214413304526873152194351690344782241334453942489042132583902736039537078899553280967916579657334775742023992853115656089319933332212416150698004102954011576007047864909647360624623191437161277853771503166932360468591802722128115336311117705536506052391622094707563146087159232380914402149252915366928852995460967666191061560947939780648827862546910751908604785108949834273439511443914152983673641870672950435598864984995846377739897409388706987756627286048451722669253946283897652506525880413247156158844085719160725251600275583453979934439372190822161545197270535405965216810066940739371493726334490297536987030754086086875230415272023089033335694436233058719177831815093753932127409491394246932854811688729874183062801093149178678059933614883397210308440036264430349209735528513205322387465851093209637811692012230152855783354701916720568889452340129807578319500787995277271975429896651892189288697950003475501725617991015438227850648907375649458444861435081271593490245864830862990672120809793776255472346404922515320523772041794428144190728648172830065092945175716954965447543713283100632881501013717094424877425033973946442722418157193367248019718258471096045661246137753262018888469907287203348618648046824889382301238020696391113022102619867449447142905397911673059910940406754334058122363259859102824064628792691367624867301116075,
  [0, 6561, 2187, 81, 10935, 8019, 6723, 6615, 6563, 15309, 2673, 2349, 2205, 2193, 13203, 4455, 11664, 11178, 11016, 10962, 10944, 10938, 10936, 10206, 8262, 8100, 8046, 8028, 8022, 8020, 8910, 7452, 6750, 6724, 8802, 6858, 6696, 6624, 6618, 8750, 6644, 6590, 15552, 15390, 15336, 15312, 2754, 2700, 2676, 2592, 2352, 2286, 2232, 2274, 12150, 11826, 11682, 11670, 12636, 11340, 11232, 11196, 11184, 11180, 12474, 11502, 11070, 11034, 11022, 11018, 12420, 11448, 11124, 10980, 10968, 10964, 12402, 11106, 10998, 10950, 10946, 12396, 11100, 10992, 10956, 10940, 12394, 11422, 11098, 10990, 10954, 10942, 10368, 10260, 10224, 10212, 10208, 8424, 8316, 8268, 8264, 8154, 8118, 8106, 8102, 8208, 8064, 8052, 8048, 8190, 8082, 8030, 8184, 8076, 8024, 8182, 8038, 8964, 8916, 8912, 7458, 6756, 6752, 8808, 8804, 6860, 6702, 6698, 6620, 17010, 15714, 15606, 15554, 16848, 15876, 15444, 15408, 15396, 15392, 15822, 15498, 15354, 15342, 15338, 16770, 15798, 15474, 15366, 15330, 15314, 2808, 2772, 2760, 2756, 2862, 2718, 2706, 2838, 2730, 2594, 2292, 2288, 12231, 12177, 12159, 12153, 12151, 12069, 11835, 11829, 11925, 11763, 11709, 11685, 11683, 11913, 11751, 11679, 12717, 12663, 12639, 12637, 11367, 11343, 11341, 11313, 11235, 11233, 11277, 11223, 11199, 11197, 11265, 11211, 11185, 11261, 11207, 11183, 12501, 12483, 12477, 11529, 11079, 11073, 11061, 11037, 11049, 11031, 11045, 11027, 11021, 12429, 12423, 12421, 11451, 11449, 11133, 11127, 11125, 10983, 10981, 10977, 10973, 10967, 12405, 12403, 11109, 11107, 11001, 10999, 10949, 12397, 11101, 10957, 10611, 10395, 10377, 10371, 10369, 10503, 10341, 10269, 10263, 10467, 10305, 10251, 10227, 10225, 10455, 10293, 10239, 10451, 10289, 10235, 10217, 10211, 8451, 8427, 8425, 8397, 8319, 8349, 8295, 8345, 8291, 8267, 8163, 8157, 8145, 8133, 8129, 8111, 8105, 8217, 8211, 8067, 8057, 8051, 8193, 8191, 8085, 9207, 8973, 8967, 8943, 9155, 8939, 8915, 6755, 9051, 8889, 9047, 8885, 8807, 6941, 6863, 6701, 17091, 17037, 17013, 15741, 15687, 15609, 15635, 15581, 15903, 15435, 15423, 15419, 15825, 15501, 15357, 2799, 2787, 2865, 12285, 12249, 12237, 12233, 12339, 12195, 12183, 12179, 12321, 12213, 12161, 12315, 12207, 12171, 12155, 12313, 12169, 12157, 12087, 12071, 11837, 11847, 11931, 11927, 11769, 11765, 11715, 11687, 11689, 12771, 12735, 12723, 12719, 12825, 12681, 12669, 12665, 12801, 12693, 12657, 12641, 12799, 12691, 12655, 12643, 11385, 11369, 11397, 11361, 11345, 11395, 11359, 11331, 11319, 11315, 11253, 11237, 11251, 11239, 11283, 11279, 11229, 11225, 11201, 11203, 11267, 11213, 12987, 12519, 12507, 12503, 12537, 12489, 12485, 12963, 12531, 12495, 12479, 11535, 11531, 11085, 11081, 11091, 11075, 11067, 11063, 11039, 11051, 12591, 12435, 12431, 12909, 12585, 12441, 12425, 12907, 12583, 12439, 11613, 11453, 11611, 11467, 11135, 11145, 11129, 11143, 10985, 12567, 12459, 12407, 12565, 12457, 11163, 11111, 11161, 11003, 12559, 12415, 11119, 10665, 10617, 10613, 10401, 10397, 10431, 10379, 10425, 10373, 10521, 10509, 10359, 10347, 10281, 10469, 10311, 10307, 10257, 10253, 10229, 10457, 10295, 10241, 8457, 8453, 8481, 8429, 8403, 8351, 8297, 8175, 8147, 8135, 8219, 8213, 8069, 8247, 9213, 9209, 8969, 8945, 9053, 8891, 17145, 17109, 17097, 17093, 17199, 17055, 17043, 17175, 17067, 17015, 15747, 15693, 15689, 15611, 15909, 15905, 15441, 15437, 15987, 15519, 2805, 12288, 12276, 12252, 12264, 12260, 12236, 12348, 12342, 12198, 12192, 12188, 12182, 12322, 12214, 12316, 12172, 12114, 12090, 12088, 12074, 11840, 12012, 11958, 11932, 12008, 11954, 11930, 11796, 11768, 12774, 12738, 12722, 12828, 12826, 12684, 12682, 12670, 12668, 12802, 12694, 12658, 11388, 11386, 11372, 11398, 11362, 11334, 11318, 11254, 11282, 11228, 12990, 12522, 12516, 12512, 12506, 12540, 12488, 11534, 11084, 11066, 12594, 12592, 12434, 12910, 12586, 12442, 11614, 11138, 11146, 10668, 10644, 10640, 10616, 10406, 10400, 10434, 10382, 10602, 10524, 10590, 10550, 10496, 10338, 10334, 10256, 10538, 10484, 10322, 8456, 8150, 9212, 9134, 17202, 17058],
  [12288, 12276, 12252, 12264, 12260, 12236, 12348, 12342, 12198, 12192, 12188, 12182, 12322, 12214, 12316, 12172, 12114, 12090, 12088, 12074, 11840, 12012, 11958, 11932, 12008, 11954, 11930, 11796, 11768, 12774, 12738, 12722, 12828, 12826, 12684, 12682, 12670, 12668, 12802, 12694, 12658, 11388, 11386, 11372, 11398, 11362, 11334, 11318, 11254, 11282, 11228, 12990, 12522, 12516, 12512, 12506, 12540, 12488, 11534, 11084, 11066, 12594, 12592, 12434, 12910, 12586, 12442, 11614, 11138, 11146, 10668, 10644, 10640, 10616, 10406, 10400, 10434, 10382, 10602, 10524, 10590, 10550, 10496, 10338, 10334, 10256, 10538, 10484, 10322, 8456, 8150, 9212, 9134, 17202, 17058]⟩

/-- The generation state after 9 rounds (checked by evaluation below). -/
def genFinal : GenState :=
  ⟨901894370860390238972076293112853017218420522224339572921324172822348901239025792491695004575481801044224753583983719880018136421168904552200029884515097540789814919967479840876572502475981842781516848873116589357788401846065723902875368741408248053617421799358288353704315549524153576611514212491076329497117066580540853516311114501114461556484520387995933487265164616739684029798040927671266148885705723412084956212650227908539963059973150631055566079085744439227315500147932835239056879582069885401127183705444100478181110489560994583333499813795942294483071672811251991309620539954227396055670661481826204522090468865986574350255520454260699794463791490492434920122720815533906471506156691840481350487600773574325255944437088708046730829816205144856150303312707339162511712697179644735947084471246648119550798499091337542572697453048557854454809532916121251927388474027481231454583339783278546314765251097318096587807675893723404889990863081426039048902519944808603717283948410219352229993899441302089806384937980728125920716762683996645245572698551252446824137311065456180488483105131070261802502322223315757587335297703554356828650697876917185958661160591771509334542434129249003905643471711097834025735242490823909743824875551633930798627666350837821584287565250755663847685021477854324237770396248446155820642377826797896695804275860188170412467827186905504620775579728643154159800149683445919246967476977810295557394960111815396654140896064547227116292907749691772481008498899224959163405404069497203114787657784441309532373873656113164691284755847198464418374447781294516259130821335755915745177877053361672083345354382791135737076790556735600424665989798765504526431967760744294006798888704263552814751809552872412971774008777324542474465465784473680432578959661225821076625466636995963343578478030739335832939260328953352523783003208047447405929861689385054256343933399179306771689094775525032468020610897906262373757008458915369078684429393210146890486598006673507553372307144153877897046837012581703885862350288937633621378864960715144046315302554226303601225213869129059954158433988414543261399685855310240068177513134987889990104816352070039373151105809348509254558203531974381644056655373810935898157912407401251929857836911586784442177174821887457377950221013660918756563215160426369557155248578676009257661788833047987751890472628510884009377940315360210087958921808977273235337968536920761637021329204838098379124790683993599933983430231215278837431815608145512398543782153703759272686736948105262176492577983020140578679390835621662921482999063432205604461788447753250066241307728491704229007130986524471112518869461593940420748448745478910039932495426465576916948033684483916188885314196019928660838975494277995096265818094403631927432682198785608377838286704927226944798896126415543984726196527247330007695348684520841920303770868823179016767332267339921366164442478545672502842209968383939316345357490151551844575983790613339665272022153331736511444402897258640158278979380370715149299504390021989875780859145540424354869539117402205214717748350993793220348791349142166127497788808453075367212496678175155732646305998791366344108625322718200757611552084570558419164077270593732470180070331439130819911436308501161268808568095769591434687625078538194389525418265483141764568261640567608489572372579305972384259852475918941003331202073281236237961769229189973318530191977466047521887308251461321981739279294098439426027339772929507462774039940258006852947270260038560360439016014128038051233505366432955422135894850980546572464563783402608855463627761577851300535430124688658434729206679392159961835176786518799501893895002057050892804571828461504210081583771757693639924997350028166114442757866425625534599390670189567026643246463033900466937621814458025266260230507796264518509419380233712140308558063748078897928307433550272992926315162464647945913606167050339063468367824106087795794693442521942039613975474492080729588807293665385313677899737867127024225426433456722035374635234111506268170834956492655598902528039537445820274236736653114918556427490159751903179783673439765718889137926164786210846742805229492793120972708410231796786137205768639997400251196655831598129161343342119580223045908418219451064966854939615790209575734818736487372764178104729687398590005705362776266374526246468642360906899809194905277701033037503506361167162813853689852158429890664421499990335016470983496914507615099140205425320832386847312018744867895616575465476062863239447869092780489800417364294541475968821675443790917361033782793902928891273034219461156711159970393466964439146325691326693915667738314126974970589698822046322809680438141542281319322946634925175614172811166241830038521043941779228630324539554373394647465768083500024618070966666433929442205661078897060169816217502637987813677053423296927767100364328539129110512671616086628458280950375441691153013132089544257224396509822330473221016363925126207880755283929107638289778884166595406094310214946489275615875034035307702881258845210994668070799227045974304890123533462984071562645487614870555948633222182262794785292461875947251262793860101526786199687657129437122996234912614571,
  [0, 6561, 2187, 81, 10935, 8019, 6723, 6615, 6563, 15309, 2673, 2349, 2205, 2193, 13203, 4455, 11664, 11178, 11016, 10962, 10944, 10938, 10936, 10206, 8262, 8100, 8046, 8028, 8022, 8020, 8910, 7452, 6750, 6724, 8802, 6858, 6696, 6624, 6618, 8750, 6644, 6590, 15552, 15390, 15336, 15312, 2754, 2700, 2676, 2592, 2352, 2286, 2232, 2274, 12150, 11826, 11682, 11670, 12636, 11340, 11232, 11196, 11184, 11180, 12474, 11502, 11070, 11034, 11022, 11018, 12420, 11448, 11124, 10980, 10968, 10964, 12402, 11106, 10998, 10950, 10946, 12396, 11100, 10992, 10956, 10940, 12394, 11422, 11098, 10990, 10954, 10942, 10368, 10260, 10224, 10212, 10208, 8424, 8316, 8268, 8264, 8154, 8118, 8106, 8102, 8208, 8064, 8052, 8048, 8190, 8082, 8030, 8184, 8076, 8024, 8182, 8038, 8964, 8916, 8912, 7458, 6756, 6752, 8808, 8804, 6860, 6702, 6698, 6620, 17010, 15714, 15606, 15554, 16848, 15876, 15444, 15408, 15396, 15392, 15822, 15498, 15354, 15342, 15338, 16770, 15798, 15474, 15366, 15330, 15314, 2808, 2772, 2760, 2756, 2862, 2718, 2706, 2838, 2730, 2594, 2292, 2288, 12231, 12177, 12159, 12153, 12151, 12069, 11835, 11829, 11925, 11763, 11709, 11685, 11683, 11913, 11751, 11679, 12717, 12663, 12639, 12637, 11367, 11343, 11341, 11313, 11235, 11233, 11277, 11223, 11199, 11197, 11265, 11211, 11185, 11261, 11207, 11183, 12501, 12483, 12477, 11529, 11079, 11073, 11061, 11037, 11049, 11031, 11045, 11027, 11021, 12429, 12423, 12421, 11451, 11449, 11133, 11127, 11125, 10983, 10981, 10977, 10973, 10967, 12405, 12403, 11109, 11107, 11001, 10999, 10949, 12397, 11101, 10957, 10611, 10395, 10377, 10371, 10369, 10503, 10341, 10269, 10263, 10467, 10305, 10251, 10227, 10225, 10455, 10293, 10239, 10451, 10289, 10235, 10217, 10211, 8451, 8427, 8425, 8397, 8319, 8349, 8295, 8345, 8291, 8267, 8163, 8157, 8145, 8133, 8129, 8111, 8105, 8217, 8211, 8067, 8057, 8051, 8193, 8191, 8085, 9207, 8973, 8967, 8943, 9155, 8939, 8915, 6755, 9051, 8889, 9047, 8885, 8807, 6941, 6863, 6701, 17091, 17037, 17013, 15741, 15687, 15609, 15635, 15581, 15903, 15435, 15423, 15419, 15825, 15501, 15357, 2799, 2787, 2865, 12285, 12249, 12237, 12233, 12339, 12195, 12183, 12179, 12321, 12213, 12161, 12315, 12207, 12171, 12155, 12313, 12169, 12157, 12087, 12071, 11837, 11847, 11931, 11927, 11769, 11765, 11715, 11687, 11689, 12771, 12735, 12723, 12719, 12825, 12681, 12669, 12665, 12801, 12693, 12657, 12641, 12799, 12691, 12655, 12643, 11385, 11369, 11397, 11361, 11345, 11395, 11359, 11331, 11319, 11315, 11253, 11237, 11251, 11239, 11283, 11279, 11229, 11225, 11201, 11203, 11267, 11213, 12987, 12519, 12507, 12503, 12537, 12489, 12485, 12963, 12531, 12495, 12479, 11535, 11531, 11085, 11081, 11091, 11075, 11067, 11063, 11039, 11051, 12591, 12435, 12431, 12909, 12585, 12441, 12425, 12907, 12583, 12439, 11613, 11453, 11611, 11467, 11135, 11145, 11129, 11143, 10985, 12567, 12459, 12407, 12565, 12457, 11163, 11111, 11161, 11003, 12559, 12415, 11119, 10665, 10617, 10613, 10401, 10397, 10431, 10379, 10425, 10373, 10521, 10509, 10359, 10347, 10281, 10469, 10311, 10307, 10257, 10253, 10229, 10457, 10295, 10241, 8457, 8453, 8481, 8429, 8403, 8351, 8297, 8175, 8147, 8135, 8219, 8213, 8069, 8247, 9213, 9209, 8969, 8945, 9053, 8891, 17145, 17109, 17097, 17093, 17199, 17055, 17043, 17175, 17067, 17015, 15747, 15693, 15689, 15611, 15909, 15905, 15441, 15437, 15987, 15519, 2805, 12288, 12276, 12252, 12264, 12260, 12236, 12348, 12342, 12198, 12192, 12188, 12182, 12322, 12214, 12316, 12172, 12114, 12090, 12088, 12074, 11840, 12012, 11958, 11932, 12008, 11954, 11930, 11796, 11768, 12774, 12738, 12722, 12828, 12826, 12684, 12682, 12670, 12668, 12802, 12694, 12658, 11388, 11386, 11372, 11398, 11362, 11334, 11318, 11254, 11282, 11228, 12990, 12522, 12516, 12512, 12506, 12540, 12488, 11534, 11084, 11066, 12594, 12592, 12434, 12910, 12586, 12442, 11614, 11138, 11146, 10668, 10644, 10640, 10616, 10406, 10400, 10434, 10382, 10602, 10524, 10590, 10550, 10496, 10338, 10334, 10256, 10538, 10484, 10322, 8456, 8150, 9212, 9134, 17202, 17058, 12306, 12282, 12278, 12254, 12266, 12350, 12360, 12344, 12200, 12194, 12220, 12334, 12116, 12092, 12792, 12740, 12830, 12686, 12688, 12856, 12712, 11390, 11416, 11336, 13008, 12992, 12524, 12518, 12596, 13072, 12928, 10646, 10608, 17060],
  []⟩

/-! ## Properties of the string order -/

theorem lexLe_refl : ∀ l : List Char, lexLe l l = true
  | [] => rfl
  | a :: as => by simp [lexLe, lexLe_refl as]

theorem lexLe_total : ∀ a b : List Char, lexLe a b = true ∨ lexLe b a = true
  | [], _ => Or.inl rfl
  | _ :: _, [] => Or.inr rfl
  | a :: as, b :: bs => by
    by_cases h1 : a.toNat < b.toNat
    · exact Or.inl (by simp [lexLe, h1])
    · by_cases h2 : b.toNat < a.toNat
      · exact Or.inr (by simp [lexLe, h2])
      · rcases lexLe_total as bs with h | h
        · exact Or.inl (by simp [lexLe, h1, h2, h])
        · exact Or.inr (by simp [lexLe, h1, h2, h])

theorem lexLe_trans : ∀ a b c : List Char,
    lexLe a b = true → lexLe b c = true → lexLe a c = true
  | [], _, _, _, _ => rfl
  | _ :: _, [], _, h, _ => by simp [lexLe] at h
  | _ :: _, _ :: _, [], _, h => by simp [lexLe] at h
  | a :: as, b :: bs, c :: cs, hab, hbc => by
    simp only [lexLe] at hab hbc ⊢
    split at hab
    · rename_i h1
      split at hbc
      · rename_i h2
        simp [Nat.lt_trans h1 h2]
      · split at hbc
        · simp at hbc
        · rename_i h2 h3
          have hbc' : b.toNat = c.toNat := Nat.le_antisymm (Nat.not_lt.mp h3) (Nat.not_lt.mp h2)
          simp [hbc' ▸ h1]
    · split at hab
      · simp at hab
      · rename_i h1 h2
        have hab' : a.toNat = b.toNat := Nat.le_antisymm (Nat.not_lt.mp h2) (Nat.not_lt.mp h1)
        split at hbc
        · rename_i h3
          simp [hab' ▸ h3]
        · split at hbc
          · simp at hbc
          · rename_i h3 h4
            have hbc' : b.toNat = c.toNat := Nat.le_antisymm (Nat.not_lt.mp h4) (Nat.not_lt.mp h3)
            simp [hab', hbc', Nat.lt_irrefl, lexLe_trans as bs cs hab hbc]

theorem lexLe_antisymm : ∀ a b : List Char,
    lexLe a b = true → lexLe b a = true → a = b
  | [], [], _, _ => rfl
  | [], _ :: _, _, h => by simp [lexLe] at h
  | _ :: _, [], h, _ => by simp [lexLe] at h
  | a :: as, b :: bs, hab, hba => by
    simp only [lexLe] at hab hba
    split at hab
    · rename_i h1
      rw [if_neg (Nat.lt_asymm h1), if_pos h1] at hba
      exact absurd hba (by simp)
    · split at hab
      · simp at hab
      · rename_i h1 h2
        have he : a.toNat = b.toNat := Nat.le_antisymm (Nat.not_lt.mp h2) (Nat.not_lt.mp h1)
        have hc : a = b := Char.ext (UInt32.toNat.inj he)
        rw [if_neg (he ▸ h1), if_neg (he ▸ h2)] at hba
        rw [hc, lexLe_antisymm as bs hab hba]

instance : IsTotal String jsStrLe :=
  ⟨fun a b => lexLe_total a.data b.data⟩

instance : IsTrans String jsStrLe :=
  ⟨fun a b c => lexLe_trans a.data b.data c.data⟩

instance : IsRefl String jsStrLe :=
  ⟨fun a => lexLe_refl a.data⟩

instance : IsAntisymm String jsStrLe :=
  ⟨fun a b hab hba => by
    cases a with
    | mk da => cases b with
      | mk db => exact congrArg String.mk (lexLe_antisymm da db hab hba)⟩

/-! ## Properties of the canonical key -/

theorem allVersions_ne_nil (board : Board) : allVersions board ≠ [] := by
  simp [allVersions, TRANSFORMATIONS]

theorem sorted_sort_jsStrLe (l : List String) :
    List.Sorted jsStrLe (l.insertionSort jsStrLe) :=
  List.sorted_insertionSort jsStrLe l

theorem headD_insertionSort_mem (l : List String) (hl : l ≠ []) :
    (l.insertionSort jsStrLe).headD ("") ∈ l := by
  have hp := List.perm_insertionSort jsStrLe l
  cases hs : l.insertionSort jsStrLe with
  | nil =>
    rw [hs] at hp
    exact absurd hp.symm.eq_nil hl
  | cons h t =>
    rw [hs] at hp
    exact hp.mem_iff.mp (by simp)

theorem headD_insertionSort_le (l : List String) :
    ∀ v ∈ l, jsStrLe ((l.insertionSort jsStrLe).headD ("")) v := by
  intro v hv
  have hp := List.perm_insertionSort jsStrLe l
  have hsorted := sorted_sort_jsStrLe l
  cases hs : l.insertionSort jsStrLe with
  | nil =>
    rw [hs] at hp
    exact absurd (hp.symm.mem_iff.mp hv) (List.not_mem_nil v)
  | cons h t =>
    rw [hs] at hp hsorted
    simp only [List.headD_cons]
    rcases List.mem_cons.mp (hp.mem_iff.mpr hv) with rfl | hv'
    · exact lexLe_refl v.data
    · exact List.rel_of_sorted_cons hsorted v hv'

theorem getCanonicalKey_mem (board : Board) :
    getCanonicalKey board ∈ allVersions board :=
  headD_insertionSort_mem (allVersions board) (allVersions_ne_nil board)

theorem getCanonicalKey_le (board : Board) :
    ∀ v ∈ allVersions board, jsStrLe (getCanonicalKey board) v :=
  headD_insertionSort_le (allVersions board)

theorem sort_eq_of_perm {l₁ l₂ : List String} (h : l₁.Perm l₂) :
    l₁.insertionSort jsStrLe = l₂.insertionSort jsStrLe :=
  List.eq_of_perm_of_sorted
    ((List.perm_insertionSort jsStrLe l₁).trans (h.trans (List.perm_insertionSort jsStrLe l₂).symm))
    (sorted_sort_jsStrLe l₁) (sorted_sort_jsStrLe l₂)

theorem getCanonicalKey_congr {b₁ b₂ : Board} (h : (allVersions b₁).Perm (allVersions b₂)) :
    getCanonicalKey b₁ = getCanonicalKey b₂ := by
  unfold getCanonicalKey
  rw [sort_eq_of_perm h]

theorem applyT_applyT (b : Board) (s t : List Nat) (ht : ∀ j ∈ t, j < s.length) :
    applyTransformation (applyTransformation b s) t
      = applyTransformation b (compPerm s t) := by
  unfold applyTransformation compPerm
  rw [List.map_map]
  apply List.map_congr_left
  intro j hj
  have hjs := ht j hj
  simp [List.getD_eq_getElem?_getD, List.getElem?_map, List.getElem?_eq_getElem hjs]

theorem transformations_bounds : ∀ t ∈ TRANSFORMATIONS, t.length = 9 ∧ ∀ i ∈ t, i < 9 := by
  decide

theorem compPerm_perm : ∀ s ∈ TRANSFORMATIONS,
    (TRANSFORMATIONS.map (fun t => compPerm s t)).Perm TRANSFORMATIONS := by
  decide

theorem canonKey_applyT (b : Board) (s : List Nat) (hs : s ∈ TRANSFORMATIONS) :
    getCanonicalKey (applyTransformation b s) = getCanonicalKey b := by
  apply getCanonicalKey_congr
  have h1 : allVersions (applyTransformation b s)
      = (TRANSFORMATIONS.map (fun t => compPerm s t)).map
          (fun u => boardToString (applyTransformation b u)) := by
    unfold allVersions
    rw [List.map_map]
    apply List.map_congr_left
    intro t htmem
    have hts := transformations_bounds t htmem
    have hss := transformations_bounds s hs
    show boardToString (applyTransformation (applyTransformation b s) t) = _
    rw [applyT_applyT b s t (fun j hj => by rw [hss.1]; exact hts.2 j hj)]
    rfl
  rw [h1]
  exact (compPerm_perm s hs).map _

/-! ## Codec round-trip -/

theorem foldl_append_data (l : List String) (s : String) :
    (l.foldl (fun r t => r ++ t) s).data = s.data ++ (l.map String.data).flatten := by
  induction l generalizing s with
  | nil => simp
  | cons x xs ih => simp [ih, String.data_append]

theorem boardToString_data (b : Board) :
    (boardToString b).data = (b.map (fun c => (jsNumToString c).data)).flatten := by
  show ((b.map jsNumToString).foldl (fun r t => r ++ t) "").data = _
  rw [foldl_append_data]
  simp [List.map_map]
  rfl

theorem decode_flatten : ∀ b : Board,
    (∀ c ∈ b, c = EMPTY ∨ c = X_PLAYER ∨ c = O_PLAYER) →
    ((b.map (fun c => (jsNumToString c).data)).flatten).map parseIntChar = b
  | [], _ => rfl
  | c :: rest, hc => by
    simp only [List.map_cons, List.flatten_cons, List.map_append]
    rw [decode_flatten rest (fun x hx => hc x (List.mem_cons_of_mem _ hx))]
    rcases hc c (List.mem_cons_self _ _) with h | h | h <;> subst h <;> rfl

theorem stringToBoard_boardToString_eq (b : Board)
    (hc : ∀ c ∈ b, c = EMPTY ∨ c = X_PLAYER ∨ c = O_PLAYER) :
    stringToBoard (boardToString b) = b := by
  show ((boardToString b).data).map parseIntChar = b
  rw [boardToString_data]
  exact decode_flatten b hc

/-! ## Legal moves, children, fold bounds -/

theorem getD_eq_empty_iff {b : Board} {p : Nat} :
    b.getD p .nan = EMPTY ↔ b[p]? = some EMPTY := by
  rw [List.getD_eq_getElem?_getD]
  cases h : b[p]? <;> simp [EMPTY]

theorem mem_getLegalMoves {b : Board} {p : Nat} :
    p ∈ getLegalMoves b ↔ b[p]? = some EMPTY := by
  constructor
  · intro hp
    obtain ⟨o, ho, hid⟩ := List.mem_filterMap.mp hp
    obtain ⟨hmem, -⟩ := List.mem_filter.mp ho
    obtain ⟨⟨i, c⟩, henum, hf⟩ := List.mem_map.mp hmem
    have hf' : (if c = EMPTY then some i else none) = some p := hf.trans hid
    by_cases hc : c = EMPTY
    · rw [if_pos hc] at hf'
      obtain rfl : i = p := Option.some.inj hf'
      rw [← hc]
      exact List.mem_enum_iff_getElem?.mp henum
    · rw [if_neg hc] at hf'
      exact absurd hf' (by simp)
  · intro hp
    apply List.mem_filterMap.mpr
    refine ⟨some p, ?_, rfl⟩
    apply List.mem_filter.mpr
    refine ⟨?_, rfl⟩
    apply List.mem_map.mpr
    exact ⟨(p, EMPTY), List.mem_enum_iff_getElem?.mpr hp, by simp⟩

theorem makeMove_ok_iff {b : Board} {p : Nat} {pl : JsNum} {nb : Board} :
    makeMove b p pl = .ok nb ↔ b.getD p .nan = EMPTY ∧ nb = b.set p pl := by
  unfold makeMove
  by_cases h : b.getD p .nan = EMPTY
  · rw [if_neg (not_not_intro h)]
    constructor
    · intro he
      exact ⟨h, (Except.ok.inj he).symm⟩
    · rintro ⟨-, rfl⟩
      rfl
  · rw [if_pos h]
    constructor
    · intro he
      exact absurd he (by simp)
    · rintro ⟨hc, -⟩
      exact absurd hc h

theorem mem_childrenOf_of_makeMove {b : Board} {p : Nat} {nb : Board}
    (h : makeMove b p (getCurrentPlayer b) = .ok nb) : nb ∈ childrenOf b := by
  unfold childrenOf
  apply List.mem_filterMap.mpr
  refine ⟨p, ?_, by rw [h]; rfl⟩
  obtain ⟨hge, -⟩ := makeMove_ok_iff.mp h
  exact mem_getLegalMoves.mpr (getD_eq_empty_iff.mp hge)

theorem le_foldl_max : ∀ (l : List Int) (a x : Int), (x = a ∨ x ∈ l) → x ≤ l.foldl max a
  | [], _, _, h => by rcases h with rfl | h; exact le_refl _; exact absurd h (List.not_mem_nil _)
  | b :: t, a, x, h => by
    rcases h with rfl | h
    · exact le_trans (le_max_left x b) (le_foldl_max t (max x b) (max x b) (Or.inl rfl))
    · rcases List.mem_cons.mp h with rfl | h'
      · exact le_trans (le_max_right a x) (le_foldl_max t (max a x) (max a x) (Or.inl rfl))
      · exact le_foldl_max t (max a b) x (Or.inr h')

theorem foldl_max_le : ∀ (l : List Int) (a c : Int), a ≤ c → (∀ x ∈ l, x ≤ c) → l.foldl max a ≤ c
  | [], _, _, ha, _ => ha
  | b :: t, a, c, ha, h => by
    exact foldl_max_le t (max a b) c (max_le ha (h b (List.mem_cons_self _ _)))
      (fun x hx => h x (List.mem_cons_of_mem _ hx))

theorem foldl_min_le : ∀ (l : List Int) (a x : Int), (x = a ∨ x ∈ l) → l.foldl min a ≤ x
  | [], _, _, h => by rcases h with rfl | h; exact le_refl _; exact absurd h (List.not_mem_nil _)
  | b :: t, a, x, h => by
    rcases h with rfl | h
    · exact le_trans (foldl_min_le t (min x b) (min x b) (Or.inl rfl)) (min_le_left x b)
    · rcases List.mem_cons.mp h with rfl | h'
      · exact le_trans (foldl_min_le t (min a x) (min a x) (Or.inl rfl)) (min_le_right a x)
      · exact foldl_min_le t (min a b) x (Or.inr h')

theorem le_foldl_min : ∀ (l : List Int) (a c : Int), c ≤ a → (∀ x ∈ l, c ≤ x) → c ≤ l.foldl min a
  | [], _, _, ha, _ => ha
  | b :: t, a, c, ha, h => by
    exact le_foldl_min t (min a b) c (le_min ha (h b (List.mem_cons_self _ _)))
      (fun x hx => h x (List.mem_cons_of_mem _ hx))

theorem le_maxScore {l : List Int} {x : Int} (h : x ∈ l) : x ≤ maxScore l := by
  cases l with
  | nil => exact absurd h (List.not_mem_nil _)
  | cons s rest =>
    rcases List.mem_cons.mp h with rfl | h'
    · exact le_foldl_max rest x x (Or.inl rfl)
    · exact le_foldl_max rest s x (Or.inr h')

theorem maxScore_nonpos {l : List Int} (h : ∀ x ∈ l, x ≤ 0) : maxScore l ≤ 0 := by
  cases l with
  | nil => exact le_refl _
  | cons s rest =>
    exact foldl_max_le rest s 0 (h s (List.mem_cons_self _ _))
      (fun x hx => h x (List.mem_cons_of_mem _ hx))

theorem minScore_le {l : List Int} {x : Int} (h : x ∈ l) : minScore l ≤ x := by
  cases l with
  | nil => exact absurd h (List.not_mem_nil _)
  | cons s rest =>
    rcases List.mem_cons.mp h with rfl | h'
    · exact foldl_min_le rest x x (Or.inl rfl)
    · exact foldl_min_le rest s x (Or.inr h')

theorem minScore_nonneg {l : List Int} (h : ∀ x ∈ l, 0 ≤ x) : 0 ≤ minScore l := by
  cases l with
  | nil => exact le_refl _
  | cons s rest =>
    exact le_foldl_min rest s 0 (h s (List.mem_cons_self _ _))
      (fun x hx => h x (List.mem_cons_of_mem _ hx))

theorem zip_exists {α : Type} : ∀ (as : List α) (bs : List Cert), as.length = bs.length →
    ∀ a ∈ as, ∃ b, (a, b) ∈ as.zip bs
  | [], _, _, _, ha => absurd ha (List.not_mem_nil _)
  | _ :: _, [], h, _, _ => by simp at h
  | a :: as, b :: bs, h, x, hx => by
    rcases List.mem_cons.mp hx with rfl | hx'
    · exact ⟨b, List.mem_cons_self _ _⟩
    · obtain ⟨y, hy⟩ := zip_exists as bs (Nat.succ.inj h) x hx'
      exact ⟨y, List.mem_cons_of_mem _ hy⟩

/-! ## Solver equations and certificate soundness -/

theorem solve_zero (b : Board) : solve 0 b = terminalScore b := rfl

theorem solve_terminal (fuel : Nat) (b : Board) (h : isTerminal b = true) :
    solve (fuel + 1) b = terminalScore b := by
  simp [solve, h]

theorem solve_of_X (fuel : Nat) (b : Board) (h1 : isTerminal b = false)
    (h2 : getCurrentPlayer b = X_PLAYER) :
    solve (fuel + 1) b = maxScore ((childrenOf b).map (fun c => solve fuel c)) := by
  simp [solve, h1, h2]

theorem solve_of_O (fuel : Nat) (b : Board) (h1 : isTerminal b = false)
    (h2 : getCurrentPlayer b ≠ X_PLAYER) :
    solve (fuel + 1) b = minScore ((childrenOf b).map (fun c => solve fuel c)) := by
  simp [solve, h1, h2]

theorem solveN_zero (n : Nat) : solveN 0 n = terminalScoreN n := rfl

theorem solveN_terminal (fuel n : Nat) (h : isTerminalN n = true) :
    solveN (fuel + 1) n = terminalScoreN n := by
  simp [solveN, h]

theorem solveN_of_X (fuel n : Nat) (h1 : isTerminalN n = false) (h2 : moverN n = 1) :
    solveN (fuel + 1) n
      = maxScore ((legalPsN n).map (fun p => solveN fuel (childNCode n p))) := by
  simp [solveN, h1, h2]

theorem solveN_of_O (fuel n : Nat) (h1 : isTerminalN n = false) (h2 : moverN n ≠ 1) :
    solveN (fuel + 1) n
      = minScore ((legalPsN n).map (fun p => solveN fuel (childNCode n p))) := by
  simp [solveN, h1, h2]

theorem mem_legalPsN {n p : Nat} (hp : p < 9) (h0 : digit n p = 0) :
    p ∈ legalPsN n :=
  List.mem_filter.mpr ⟨List.mem_range.mpr hp, by simp [h0]⟩

theorem checkLBN_sound : ∀ (fuel n : Nat) (cert : Cert),
    checkLBN fuel n cert = true → 0 ≤ solveN fuel n := by
  intro fuel
  induction fuel with
  | zero =>
    intro n cert h
    simp only [checkLBN] at h
    exact of_decide_eq_true h
  | succ fuel ih =>
    intro n cert h
    simp only [checkLBN] at h
    by_cases hterm : isTerminalN n = true
    · rw [if_pos hterm] at h
      rw [solveN_terminal fuel n hterm]
      exact of_decide_eq_true h
    · have hterm' : isTerminalN n = false := Bool.eq_false_iff.mpr hterm
      rw [if_neg hterm] at h
      cases cert with
      | leaf => exact absurd h (by simp)
      | move p next =>
        simp only [Bool.and_eq_true] at h
        obtain ⟨⟨⟨hpl, hp9⟩, h0⟩, hrest⟩ := h
        have hplX : moverN n = 1 := of_decide_eq_true hpl
        have hmem : p ∈ legalPsN n :=
          mem_legalPsN (of_decide_eq_true hp9) (of_decide_eq_true h0)
        rw [solveN_of_X fuel n hterm' hplX]
        exact le_trans (ih _ next hrest) (le_maxScore (List.mem_map_of_mem _ hmem))
      | branch cs =>
        simp only [Bool.and_eq_true] at h
        obtain ⟨⟨hpl, hlen⟩, hall⟩ := h
        have hplO : moverN n = 2 := of_decide_eq_true hpl
        have hplX : moverN n ≠ 1 := by rw [hplO]; decide
        rw [solveN_of_O fuel n hterm' hplX]
        apply minScore_nonneg
        intro x hx
        obtain ⟨p, hpmem, rfl⟩ := List.mem_map.mp hx
        obtain ⟨ct, hct⟩ := zip_exists (legalPsN n) cs (beq_iff_eq.mp hlen) p hpmem
        exact ih _ ct (List.all_eq_true.mp hall _ hct)

theorem checkUBN_sound : ∀ (fuel n : Nat) (cert : Cert),
    checkUBN fuel n cert = true → solveN fuel n ≤ 0 := by
  intro fuel
  induction fuel with
  | zero =>
    intro n cert h
    simp only [checkUBN] at h
    exact of_decide_eq_true h
  | succ fuel ih =>
    intro n cert h
    simp only [checkUBN] at h
    by_cases hterm : isTerminalN n = true
    · rw [if_pos hterm] at h
      rw [solveN_terminal fuel n hterm]
      exact of_decide_eq_true h
    · have hterm' : isTerminalN n = false := Bool.eq_false_iff.mpr hterm
      rw [if_neg hterm] at h
      cases cert with
      | leaf => exact absurd h (by simp)
      | move p next =>
        simp only [Bool.and_eq_true] at h
        obtain ⟨⟨⟨hpl, hp9⟩, h0⟩, hrest⟩ := h
        have hplO : moverN n = 2 := of_decide_eq_true hpl
        have hplX : moverN n ≠ 1 := by rw [hplO]; decide
        have hmem : p ∈ legalPsN n :=
          mem_legalPsN (of_decide_eq_true hp9) (of_decide_eq_true h0)
        rw [solveN_of_O fuel n hterm' hplX]
        exact le_trans (minScore_le (List.mem_map_of_mem _ hmem)) (ih _ next hrest)
      | branch cs =>
        simp only [Bool.and_eq_true] at h
        obtain ⟨⟨hpl, hlen⟩, hall⟩ := h
        have hplX : moverN n = 1 := of_decide_eq_true hpl
        rw [solveN_of_X fuel n hterm' hplX]
        apply maxScore_nonpos
        intro x hx
        obtain ⟨p, hpmem, rfl⟩ := List.mem_map.mp hx
        obtain ⟨ct, hct⟩ := zip_exists (legalPsN n) cs (beq_iff_eq.mp hlen) p hpmem
        exact ih _ ct (List.all_eq_true.mp hall _ hct)

/-! ## The terminal test -/

theorem checkWinner_isSome_iff (b : Board) :
    (checkWinner b).isSome = true ↔ ∃ p ∈ WIN_PATTERNS, winningLine b p := by
  rw [Option.isSome_iff_exists]
  constructor
  · rintro ⟨v, hv⟩
    obtain ⟨pat, hmem, hf⟩ := List.exists_of_findSome?_eq_some hv
    refine ⟨pat, hmem, ?_⟩
    fin_cases hmem <;>
      (simp only [patternWin] at hf
       split at hf
       · rename_i hC
         exact ⟨_, _, _, rfl, hC.1, hC.2.1, hC.2.2⟩
       · exact absurd hf (by simp))
  · rintro ⟨pat, hmem, hwl⟩
    by_contra hnone
    push_neg at hnone
    have hn : checkWinner b = none := Option.eq_none_iff_forall_not_mem.mpr
      (fun v hv => hnone v hv)
    unfold checkWinner at hn
    rw [List.findSome?_eq_none_iff] at hn
    have hpat := hn pat hmem
    obtain ⟨a, i, j, rfl, h1, h2, h3⟩ := hwl
    simp only [patternWin, ite_eq_right_iff, not_and, not_forall] at hpat
    simp only [List.getD_eq_getElem?_getD] at h1 h2 h3
    simp [h1, h2, h3] at hpat
    exact h1 (h2.trans (h3.trans hpat))

theorem checkWinner_eq_some {b : Board} {v : JsNum} (h : checkWinner b = some v) :
    v ≠ EMPTY ∧ ∃ a, v = b.getD a .nan ∧ a < 9 := by
  obtain ⟨pat, hmem, hf⟩ := List.exists_of_findSome?_eq_some h
  fin_cases hmem <;>
    (simp only [patternWin] at hf
     split at hf
     · rename_i hC
       obtain rfl : b.getD _ .nan = v := Option.some.inj hf
       exact ⟨hC.1, _, rfl, by decide⟩
     · exact absurd hf (by simp))

theorem genIter_add (m n : Nat) (st : GenState) :
    genIter (m + n) st = genIter m (genIter n st) := by
  induction n generalizing st with
  | zero => rfl
  | succ k ih => exact ih (genStep st)

/-! ## Code-level equivalences

The generation run and the certificate checkers compute on base-3 board
codes. The lemmas of this section prove that every code-level function
agrees with the corresponding board-level function of the source under
`decodeBoardCode`.
-/

theorem digit_lt_three (n i : Nat) : digit n i < 3 := Nat.mod_lt _ (by norm_num)

theorem decode_length (n : Nat) : (decodeBoardCode n).length = 9 := by
  simp [decodeBoardCode]

theorem decode_getD {i : Nat} (n : Nat) (hi : i < 9) :
    (decodeBoardCode n).getD i .nan = .num (digit n i) := by
  unfold decodeBoardCode
  rw [List.getD_eq_getElem?_getD, List.getElem?_map, List.getElem?_range hi]
  rfl

theorem decode_cells (n : Nat) :
    ∀ c ∈ decodeBoardCode n, c = EMPTY ∨ c = X_PLAYER ∨ c = O_PLAYER := by
  intro c hc
  obtain ⟨i, -, rfl⟩ := List.mem_map.mp hc
  have h3 : digit n i < 3 := digit_lt_three n i
  rcases (by omega : digit n i = 0 ∨ digit n i = 1 ∨ digit n i = 2) with h | h | h <;>
    rw [h]
  · exact Or.inl rfl
  · exact Or.inr (Or.inl rfl)
  · exact Or.inr (Or.inr rfl)

theorem foldl_congr_mem {α β : Type} :
    ∀ (l : List α) (f g : β → α → β) (a : β),
      (∀ b : β, ∀ x ∈ l, f b x = g b x) → l.foldl f a = l.foldl g a := by
  intro l
  induction l with
  | nil => intro f g a _; rfl
  | cons x l ih =>
    intro f g a h
    rw [List.foldl_cons, List.foldl_cons, h a x (.head _)]
    exact ih f g _ (fun b y hy => h b y (.tail _ hy))

theorem foldl_horner_val {α : Type} (v : α → Nat) (l : List α) : ∀ acc : Nat,
    l.foldl (fun a c => a * 3 + v c) acc
      = acc * 3 ^ l.length + l.foldl (fun a c => a * 3 + v c) 0 := by
  induction l with
  | nil => intro acc; simp
  | cons d l ih =>
    intro acc
    simp only [List.foldl_cons, List.length_cons]
    rw [ih (acc * 3 + v d), ih (0 * 3 + v d)]
    ring

theorem cellVal_lt_three {c : JsNum} (h : c = EMPTY ∨ c = X_PLAYER ∨ c = O_PLAYER) :
    cellVal c < 3 := by
  rcases h with h | h | h <;> subst h <;> decide

theorem boardLexCode_cons (c : JsNum) (l : List JsNum) :
    boardLexCode (c :: l) = cellVal c * 3 ^ l.length + boardLexCode l := by
  unfold boardLexCode
  rw [List.foldl_cons, foldl_horner_val cellVal l]
  ring

theorem boardLexCode_lt : ∀ b : Board, (∀ c ∈ b, cellVal c < 3) →
    boardLexCode b < 3 ^ b.length
  | [], _ => by simp [boardLexCode]
  | c :: l, h => by
    rw [boardLexCode_cons, List.length_cons, pow_succ]
    have h1 : cellVal c < 3 := h c (.head _)
    have h2 : boardLexCode l < 3 ^ l.length :=
      boardLexCode_lt l (fun x hx => h x (.tail _ hx))
    calc cellVal c * 3 ^ l.length + boardLexCode l
        < cellVal c * 3 ^ l.length + 3 ^ l.length := by omega
      _ = (cellVal c + 1) * 3 ^ l.length := by ring
      _ ≤ 3 * 3 ^ l.length := Nat.mul_le_mul_right _ (by omega)
      _ = 3 ^ l.length * 3 := by ring

theorem horner_digits : ∀ (k : Nat) (m : Nat), m < 3 ^ k →
    (List.range k).foldl (fun a i => a * 3 + m / 3 ^ (k - 1 - i) % 3) 0 = m := by
  intro k
  induction k with
  | zero =>
    intro m hm
    have hz : m = 0 := by simpa using hm
    simp [hz]
  | succ k ih =>
    intro m hm
    rw [List.range_succ, List.foldl_append]
    have hstep : (List.range k).foldl (fun a i => a * 3 + m / 3 ^ (k + 1 - 1 - i) % 3) 0
        = (List.range k).foldl (fun a i => a * 3 + (m / 3) / 3 ^ (k - 1 - i) % 3) 0 := by
      apply foldl_congr_mem
      intro b i hi
      have hik : i < k := List.mem_range.mp hi
      have he : k + 1 - 1 - i = (k - 1 - i) + 1 := by omega
      rw [he, pow_succ, Nat.mul_comm (3 ^ (k - 1 - i)) 3, ← Nat.div_div_eq_div_mul]
    rw [hstep, ih (m / 3) (by
      rw [pow_succ] at hm
      exact (Nat.div_lt_iff_lt_mul (by norm_num)).mpr hm)]
    have he0 : k + 1 - 1 - k = 0 := by omega
    simp only [List.foldl_cons, List.foldl_nil, he0, pow_zero, Nat.div_one]
    omega

theorem boardLexCode_decode (m : Nat) (hm : m < 3 ^ 9) :
    boardLexCode (decodeBoardCode m) = m := by
  unfold boardLexCode decodeBoardCode
  rw [List.foldl_map]
  refine Eq.trans (foldl_congr_mem _ _ _ _ ?_) (horner_digits 9 m hm)
  intro b i _
  rfl

theorem digit_surgery_div (n v k j : Nat) (hkj : k < j) (h0 : n / 3 ^ k % 3 = 0)
    (hv : v < 3) : (n + v * 3 ^ k) / 3 ^ j = n / 3 ^ j := by
  have hpk : 0 < (3:ℕ) ^ k := pow_pos (by norm_num) k
  have hpj : 0 < (3:ℕ) ^ j := pow_pos (by norm_num) j
  have hn : 3 ^ j * (n / 3 ^ j) + n % 3 ^ j = n := Nat.div_add_mod n (3 ^ j)
  set q := n / 3 ^ j with hqdef
  set r := n % 3 ^ j with hrdef
  have hrlt : r < 3 ^ j := Nat.mod_lt n hpj
  have hnr : n / 3 ^ k = r / 3 ^ k + 3 ^ (j - k) * q := by
    conv_lhs => rw [← hn]
    rw [show (3:ℕ) ^ j * q + r = r + 3 ^ k * (3 ^ (j - k) * q) by
      rw [← Nat.mul_assoc, ← pow_add, show k + (j - k) = j by omega]; ring]
    exact Nat.add_mul_div_left r _ hpk
  obtain ⟨d, hd⟩ : ∃ d, j - k = d + 1 := ⟨j - k - 1, by omega⟩
  have hr0 : r / 3 ^ k % 3 = 0 := by
    have h33 : (3:ℕ) ^ (j - k) * q = (3 ^ d * q) * 3 := by
      rw [hd, pow_succ]; ring
    rw [hnr, h33, Nat.add_mul_mod_self_right] at h0
    exact h0
  have hrk : r % 3 ^ (k + 1) < 3 ^ k := by
    have h1 : r % 3 ^ (k + 1) / 3 ^ k = r / 3 ^ k % 3 := by
      rw [pow_succ]
      exact Nat.mod_mul_right_div_self r (3 ^ k) 3
    by_contra hge
    push_neg at hge
    have h4 : 1 ≤ r % 3 ^ (k + 1) / 3 ^ k := (Nat.one_le_div_iff hpk).mpr hge
    omega
  have hbound : r + v * 3 ^ k < 3 ^ j := by
    have hs : 3 ^ (k + 1) * (r / 3 ^ (k + 1)) + r % 3 ^ (k + 1) = r :=
      Nat.div_add_mod r _
    set s := r / 3 ^ (k + 1) with hsdef
    have hslt : s < 3 ^ (j - k - 1) := by
      rw [hsdef]
      apply Nat.div_lt_of_lt_mul
      calc r < 3 ^ j := hrlt
        _ = 3 ^ (k + 1) * 3 ^ (j - k - 1) := by
            rw [← pow_add]; congr 1; omega
    have hsmall : r % 3 ^ (k + 1) + v * 3 ^ k < 3 ^ (k + 1) := by
      have hps : (3:ℕ) ^ (k + 1) = 3 ^ k * 3 := pow_succ 3 k
      have hv2 : v * 3 ^ k ≤ 2 * 3 ^ k := Nat.mul_le_mul_right _ (by omega)
      omega
    calc r + v * 3 ^ k
        = 3 ^ (k + 1) * s + (r % 3 ^ (k + 1) + v * 3 ^ k) := by omega
      _ < 3 ^ (k + 1) * s + 3 ^ (k + 1) := by omega
      _ = 3 ^ (k + 1) * (s + 1) := by ring
      _ ≤ 3 ^ (k + 1) * 3 ^ (j - k - 1) := Nat.mul_le_mul_left _ (by omega)
      _ = 3 ^ j := by rw [← pow_add]; congr 1; omega
  have key : n + v * 3 ^ k = r + v * 3 ^ k + q * 3 ^ j := by
    conv_lhs => rw [← hn]
    ring
  rw [key, Nat.add_mul_div_right _ _ hpj, Nat.div_eq_of_lt hbound, Nat.zero_add]

theorem digit_add (n p v i : Nat) (hp : p < 9) (hi : i < 9)
    (h0 : digit n p = 0) (hv : v < 3) :
    digit (n + v * 3 ^ (8 - p)) i = if i = p then v else digit n i := by
  simp only [digit] at h0 ⊢
  by_cases hip : i = p
  · subst hip
    rw [if_pos rfl]
    rw [Nat.add_mul_div_right _ _ (pow_pos (by norm_num) _)]
    obtain ⟨t, ht⟩ := Nat.dvd_of_mod_eq_zero h0
    rw [ht, Nat.mul_add_mod]
    exact Nat.mod_eq_of_lt hv
  · rw [if_neg hip]
    rcases Nat.lt_or_ge p i with hpi | hpi
    · have hki : 8 - i < 8 - p := by omega
      have hsplit : (3:ℕ) ^ (8 - p) = 3 ^ ((8 - p) - (8 - i)) * 3 ^ (8 - i) := by
        rw [← pow_add]; congr 1; omega
      rw [hsplit, ← Nat.mul_assoc, Nat.add_mul_div_right _ _ (pow_pos (by norm_num) _)]
      have hd : (8 - p) - (8 - i) = ((8 - p) - (8 - i) - 1) + 1 := by omega
      rw [hd, pow_succ, ← Nat.mul_assoc, Nat.add_mul_mod_self_right]
    · have hlt : 8 - p < 8 - i := by omega
      rw [digit_surgery_div n v (8 - p) (8 - i) hlt h0 hv]

theorem moverN_lt_three (n : Nat) : moverN n < 3 := by
  unfold moverN
  split <;> norm_num

theorem decode_childNCode (n p : Nat) (hp : p < 9) (h0 : digit n p = 0) :
    decodeBoardCode (childNCode n p) = (decodeBoardCode n).set p (.num (moverN n)) := by
  apply List.ext_getElem
  · rw [decode_length, List.length_set, decode_length]
  intro i hi1 hi2
  rw [decode_length] at hi1
  simp only [decodeBoardCode, List.getElem_map, List.getElem_range, List.getElem_set]
  rw [show childNCode n p = n + moverN n * 3 ^ (8 - p) from rfl,
    digit_add n p (moverN n) i hp hi1 h0 (moverN_lt_three n)]
  by_cases hip : p = i
  · subst hip
    rw [if_pos rfl, if_pos rfl]
  · rw [if_neg hip, if_neg (fun h => hip h.symm)]

theorem childNCode_lt (n p : Nat) (hn : n < 3 ^ 9) (hp : p < 9) (h0 : digit n p = 0) :
    childNCode n p < 3 ^ 9 := by
  have hdiv : (n + moverN n * 3 ^ (8 - p)) / 3 ^ 9 = n / 3 ^ 9 :=
    digit_surgery_div n (moverN n) (8 - p) 9 (by omega) (by simpa [digit] using h0)
      (moverN_lt_three n)
  have hz : childNCode n p / 3 ^ 9 = 0 := by
    rw [show childNCode n p = n + moverN n * 3 ^ (8 - p) from rfl, hdiv,
      Nat.div_eq_of_lt hn]
  by_contra hge
  push_neg at hge
  have h1 : 1 ≤ childNCode n p / 3 ^ 9 :=
    (Nat.one_le_div_iff (pow_pos (by norm_num) _)).mpr hge
  omega

theorem findSome?_map_eq {α β γ : Type} (l : List α) (f : α → Option β)
    (g : α → Option γ) (h : β → γ) (hfg : ∀ a ∈ l, g a = (f a).map h) :
    l.findSome? g = (l.findSome? f).map h := by
  induction l with
  | nil => rfl
  | cons x l ih =>
    rw [List.findSome?_cons, List.findSome?_cons, hfg x (.head _)]
    cases f x with
    | none => simpa using ih (fun a ha => hfg a (.tail _ ha))
    | some b => rfl

theorem patternWin_decode (n : Nat) (pat : List Nat) (hpat : ∀ i ∈ pat, i < 9) :
    patternWin (decodeBoardCode n) pat
      = (patternWinN n pat).map (fun v => JsNum.num v) := by
  match pat, hpat with
  | [], _ => rfl
  | [a], _ => rfl
  | [a, b], _ => rfl
  | a :: b :: c :: d :: rest, _ => rfl
  | [a, b, c], hpat =>
    have ha : a < 9 := hpat a (by simp)
    have hb : b < 9 := hpat b (by simp)
    have hc : c < 9 := hpat c (by simp)
    simp only [patternWin, patternWinN, decode_getD n ha, decode_getD n hb,
      decode_getD n hc]
    have hiff : (JsNum.num (digit n a) ≠ EMPTY ∧
        JsNum.num (digit n a) = JsNum.num (digit n b) ∧
        JsNum.num (digit n b) = JsNum.num (digit n c)) ↔
        (digit n a ≠ 0 ∧ digit n a = digit n b ∧ digit n b = digit n c) := by
      simp [EMPTY]
    by_cases h : digit n a ≠ 0 ∧ digit n a = digit n b ∧ digit n b = digit n c
    · rw [if_pos (hiff.mpr h), if_pos h]
      rfl
    · rw [if_neg (fun hh => h (hiff.mp hh)), if_neg h]
      rfl

theorem checkWinner_decode (n : Nat) :
    checkWinner (decodeBoardCode n) = (checkWinnerN n).map (fun v => JsNum.num v) := by
  unfold checkWinner checkWinnerN
  refine findSome?_map_eq _ _ _ _ ?_
  intro pat hmem
  refine patternWin_decode n pat ?_
  fin_cases hmem <;> decide

theorem isTerminalN_eq (n : Nat) : isTerminal (decodeBoardCode n) = isTerminalN n := by
  unfold isTerminal isTerminalN
  rw [checkWinner_decode, Option.isSome_map']
  congr 1
  congr 1
  rw [decide_eq_decide]
  constructor
  · intro hmem
    obtain ⟨i, hi, he⟩ := List.mem_map.mp hmem
    exact ⟨i, hi, (by simpa [EMPTY] using he.symm : (0:Nat) = digit n i).symm⟩
  · rintro ⟨i, hi, hd⟩
    exact List.mem_map.mpr ⟨i, hi, by simp [EMPTY, hd]⟩

theorem terminalScoreN_eq (n : Nat) :
    terminalScore (decodeBoardCode n) = terminalScoreN n := by
  unfold terminalScore terminalScoreN
  rw [checkWinner_decode]
  cases checkWinnerN n with
  | none => rfl
  | some w =>
    simp only [Option.map_some']
    by_cases h1 : w = 1
    · subst h1; rfl
    · rw [if_neg (by simpa [X_PLAYER] using h1), if_neg h1]
      by_cases h2 : w = 2
      · subst h2; rfl
      · rw [if_neg (by simpa [O_PLAYER] using h2), if_neg h2]

theorem moverN_eq (n : Nat) :
    getCurrentPlayer (decodeBoardCode n) = .num (moverN n) := by
  have hX : ((decodeBoardCode n).filter (fun c => c = X_PLAYER)).length
      = ((List.range 9).filter (fun i => digit n i = 1)).length := by
    unfold decodeBoardCode
    rw [List.filter_map, List.length_map]
    congr 1
    apply List.filter_congr
    intro i _
    simp [X_PLAYER, Function.comp]
  have hO : ((decodeBoardCode n).filter (fun c => c = O_PLAYER)).length
      = ((List.range 9).filter (fun i => digit n i = 2)).length := by
    unfold decodeBoardCode
    rw [List.filter_map, List.length_map]
    congr 1
    apply List.filter_congr
    intro i _
    simp [O_PLAYER, Function.comp]
  unfold getCurrentPlayer moverN
  rw [hX, hO]
  split <;> rfl

theorem filterMap_via_filter {α β : Type} (f : α → Option β) :
    ∀ l : List α, ((l.map f).filter (fun o => o.isSome)).filterMap id = l.filterMap f := by
  intro l
  induction l with
  | nil => rfl
  | cons a l ih =>
    simp only [List.map_cons, List.filter_cons]
    cases hfa : f a with
    | none => simpa [hfa] using ih
    | some b => simp [hfa, List.filterMap_cons, ih]

theorem enum_decode (n : Nat) :
    (decodeBoardCode n).enum = (List.range 9).map (fun i => (i, JsNum.num (digit n i))) := by
  unfold decodeBoardCode
  rw [List.enum_eq_zip_range, List.length_map, List.length_range]
  nth_rewrite 1 [show List.range 9 = (List.range 9).map id from (List.map_id _).symm]
  rw [List.zip_map']
  rfl

theorem filterMap_guard_eq_filter {α : Type} (p : α → Bool) :
    ∀ l : List α, l.filterMap (fun a => if p a then some a else none) = l.filter p := by
  intro l
  induction l with
  | nil => rfl
  | cons a l ih =>
    by_cases h : p a = true <;>
      simp [List.filterMap_cons, List.filter_cons, h, ih]

theorem getLegalMoves_decode (n : Nat) :
    getLegalMoves (decodeBoardCode n) = legalPsN n := by
  unfold getLegalMoves
  rw [filterMap_via_filter, enum_decode, List.filterMap_map]
  unfold legalPsN
  rw [show ((fun p : Nat × JsNum => if p.2 = EMPTY then some p.1 else none) ∘
      (fun i => (i, JsNum.num (digit n i))))
    = (fun i : Nat => if (decide (digit n i = 0) : Bool) then some i else none) from
    funext fun i => by
      by_cases h : digit n i = 0
      · simp [Function.comp, EMPTY, h]
      · simp [Function.comp, EMPTY, h]]
  exact filterMap_guard_eq_filter _ _

theorem filterMap_eq_map_of_some {α β : Type} (f : α → Option β) (g : α → β) :
    ∀ l : List α, (∀ a ∈ l, f a = some (g a)) → l.filterMap f = l.map g := by
  intro l
  induction l with
  | nil => intro _; rfl
  | cons a l ih =>
    intro h
    rw [List.filterMap_cons, h a (.head _), List.map_cons,
      ih (fun x hx => h x (.tail _ hx))]

theorem mem_legalPsN_iff {n p : Nat} : p ∈ legalPsN n ↔ p < 9 ∧ digit n p = 0 := by
  unfold legalPsN
  rw [List.mem_filter, List.mem_range]
  simp

theorem childrenOf_decode (n : Nat) :
    childrenOf (decodeBoardCode n)
      = (legalPsN n).map (fun p => decodeBoardCode (childNCode n p)) := by
  unfold childrenOf
  rw [getLegalMoves_decode]
  apply filterMap_eq_map_of_some
  intro p hp
  obtain ⟨hp9, h0⟩ := mem_legalPsN_iff.mp hp
  have hgd : (decodeBoardCode n).getD p .nan = EMPTY := by
    rw [decode_getD n hp9, h0]
    rfl
  unfold makeMove
  rw [if_neg (by rw [hgd]; exact fun h => h rfl)]
  show some _ = some _
  rw [moverN_eq n, ← decode_childNCode n p hp9 h0]

theorem solveN_eq : ∀ (fuel n : Nat), n < 3 ^ 9 →
    solve fuel (decodeBoardCode n) = solveN fuel n := by
  intro fuel
  induction fuel with
  | zero => intro n _; exact terminalScoreN_eq n
  | succ fuel ih =>
    intro n hn
    by_cases hterm : isTerminalN n = true
    · rw [solve_terminal _ _ (by rw [isTerminalN_eq]; exact hterm),
        solveN_terminal _ _ hterm, terminalScoreN_eq]
    · have hterm' : isTerminalN n = false := Bool.eq_false_iff.mpr hterm
      have htermb : isTerminal (decodeBoardCode n) = false := by
        rw [isTerminalN_eq]
        exact hterm'
      have hmap : (childrenOf (decodeBoardCode n)).map (fun c => solve fuel c)
          = (legalPsN n).map (fun p => solveN fuel (childNCode n p)) := by
        rw [childrenOf_decode, List.map_map]
        apply List.map_congr_left
        intro p hp
        obtain ⟨hp9, h0⟩ := mem_legalPsN_iff.mp hp
        exact ih (childNCode n p) (childNCode_lt n p hn hp9 h0)
      by_cases hmv : moverN n = 1
      · rw [solve_of_X fuel _ htermb (by rw [moverN_eq, hmv]; rfl),
          solveN_of_X fuel n hterm' hmv, hmap]
      · rw [solve_of_O fuel _ htermb
          (by rw [moverN_eq]; exact fun h => hmv (JsNum.num.inj h)),
          solveN_of_O fuel n hterm' hmv, hmap]

theorem foldl_min_le_nat : ∀ (l : List Nat) (a x : Nat), (x = a ∨ x ∈ l) → l.foldl min a ≤ x
  | [], _, _, h => by
    rcases h with rfl | h
    · exact le_refl _
    · exact absurd h (List.not_mem_nil _)
  | b :: t, a, x, h => by
    rcases h with rfl | h
    · exact le_trans (foldl_min_le_nat t (min x b) (min x b) (Or.inl rfl)) (min_le_left x b)
    · rcases List.mem_cons.mp h with rfl | h'
      · exact le_trans (foldl_min_le_nat t (min a x) (min a x) (Or.inl rfl))
          (min_le_right a x)
      · exact foldl_min_le_nat t (min a b) x (Or.inr h')

theorem minNat_le {l : List Nat} {x : Nat} (h : x ∈ l) : minNat l ≤ x := by
  cases l with
  | nil => exact absurd h (List.not_mem_nil _)
  | cons c cs =>
    unfold minNat
    rcases List.mem_cons.mp h with rfl | h'
    · exact foldl_min_le_nat cs x x (Or.inl rfl)
    · exact foldl_min_le_nat cs c x (Or.inr h')

theorem foldl_min_mem : ∀ (l : List Nat) (a : Nat), l.foldl min a = a ∨ l.foldl min a ∈ l := by
  intro l
  induction l with
  | nil => intro a; exact Or.inl rfl
  | cons b l ih =>
    intro a
    rw [List.foldl_cons]
    rcases ih (min a b) with h | h
    · rcases min_choice a b with h2 | h2
      · exact Or.inl (by rw [h, h2])
      · exact Or.inr (by rw [h, h2]; exact .head _)
    · exact Or.inr (.tail _ h)

theorem minNat_mem : ∀ (l : List Nat), l ≠ [] → minNat l ∈ l
  | [], h => absurd rfl h
  | c :: cs, _ => by
    show cs.foldl min c ∈ c :: cs
    rcases foldl_min_mem cs c with h | h
    · rw [h]; exact .head _
    · exact .tail _ h

theorem canonCodeN_attained (n : Nat) :
    ∃ t ∈ TRANSFORMATIONS, permN t n = canonCodeN n := by
  have hne : TRANSFORMATIONS.map (fun t => permN t n) ≠ [] := by
    simp [TRANSFORMATIONS]
  obtain ⟨t, ht, he⟩ := List.mem_map.mp (minNat_mem _ hne)
  exact ⟨t, ht, he⟩

theorem canonCodeN_le (n : Nat) (t : List Nat) (ht : t ∈ TRANSFORMATIONS) :
    canonCodeN n ≤ permN t n := by
  unfold canonCodeN
  exact minNat_le (List.mem_map_of_mem _ ht)

theorem permN_eq (n : Nat) (t : List Nat) (ht : ∀ i ∈ t, i < 9) :
    boardLexCode (applyTransformation (decodeBoardCode n) t) = permN t n := by
  unfold boardLexCode applyTransformation permN
  rw [List.foldl_map]
  apply foldl_congr_mem
  intro b i hi
  rw [decode_getD n (ht i hi)]
  rfl

theorem lexLe_cons (a b : Char) (r1 r2 : List Char) :
    lexLe (a :: r1) (b :: r2)
      = if a.toNat < b.toNat then true
        else if b.toNat < a.toNat then false else lexLe r1 r2 := rfl

theorem lexLe_flatten_iff : ∀ (b1 b2 : Board), b1.length = b2.length →
    (∀ c ∈ b1, c = EMPTY ∨ c = X_PLAYER ∨ c = O_PLAYER) →
    (∀ c ∈ b2, c = EMPTY ∨ c = X_PLAYER ∨ c = O_PLAYER) →
    (lexLe ((b1.map (fun c => (jsNumToString c).data)).flatten)
        ((b2.map (fun c => (jsNumToString c).data)).flatten) = true
      ↔ boardLexCode b1 ≤ boardLexCode b2)
  | [], [], _, _, _ => by simp [lexLe, boardLexCode]
  | [], c :: l, h, _, _ => by simp at h
  | c :: l, [], h, _, _ => by simp at h
  | c1 :: l1, c2 :: l2, h, w1, w2 => by
    have e0 : (jsNumToString EMPTY).data = [('0' : Char)] := rfl
    have e1 : (jsNumToString X_PLAYER).data = [('1' : Char)] := rfl
    have e2 : (jsNumToString O_PLAYER).data = [('2' : Char)] := rfl
    have v0 : cellVal EMPTY = 0 := rfl
    have v1 : cellVal X_PLAYER = 1 := rfl
    have v2 : cellVal O_PLAYER = 2 := rfl
    have hlen : l1.length = l2.length := by simpa using h
    have ih := lexLe_flatten_iff l1 l2 hlen
      (fun x hx => w1 x (.tail _ hx)) (fun x hx => w2 x (.tail _ hx))
    have hc1 : boardLexCode l1 < 3 ^ l1.length :=
      boardLexCode_lt l1 (fun x hx => cellVal_lt_three (w1 x (.tail _ hx)))
    have hc2 : boardLexCode l2 < 3 ^ l2.length :=
      boardLexCode_lt l2 (fun x hx => cellVal_lt_three (w2 x (.tail _ hx)))
    rw [boardLexCode_cons, boardLexCode_cons, ← hlen]
    simp only [List.map_cons, List.flatten_cons]
    rw [← hlen] at hc2
    rcases w1 c1 (.head _) with h1 | h1 | h1 <;>
      rcases w2 c2 (.head _) with h2 | h2 | h2 <;> subst h1 <;> subst h2
    · rw [e0, List.singleton_append, List.singleton_append, lexLe_cons,
        if_neg (by decide), if_neg (by decide), v0, ih]
      omega
    · rw [e0, e1, List.singleton_append, List.singleton_append, lexLe_cons,
        if_pos (by decide), v0, v1]
      exact iff_of_true rfl (by omega)
    · rw [e0, e2, List.singleton_append, List.singleton_append, lexLe_cons,
        if_pos (by decide), v0, v2]
      exact iff_of_true rfl (by omega)
    · rw [e1, e0, List.singleton_append, List.singleton_append, lexLe_cons,
        if_neg (by decide), if_pos (by decide), v1, v0]
      exact iff_of_false (by simp) (by omega)
    · rw [e1, List.singleton_append, List.singleton_append, lexLe_cons,
        if_neg (by decide), if_neg (by decide), v1, ih]
      omega
    · rw [e1, e2, List.singleton_append, List.singleton_append, lexLe_cons,
        if_pos (by decide), v1, v2]
      exact iff_of_true rfl (by omega)
    · rw [e2, e0, List.singleton_append, List.singleton_append, lexLe_cons,
        if_neg (by decide), if_pos (by decide), v2, v0]
      exact iff_of_false (by simp) (by omega)
    · rw [e2, e1, List.singleton_append, List.singleton_append, lexLe_cons,
        if_neg (by decide), if_pos (by decide), v2, v1]
      exact iff_of_false (by simp) (by omega)
    · rw [e2, List.singleton_append, List.singleton_append, lexLe_cons,
        if_neg (by decide), if_neg (by decide), v2, ih]
      omega

theorem jsStrLe_code_iff (b1 b2 : Board) (hlen : b1.length = b2.length)
    (w1 : ∀ c ∈ b1, c = EMPTY ∨ c = X_PLAYER ∨ c = O_PLAYER)
    (w2 : ∀ c ∈ b2, c = EMPTY ∨ c = X_PLAYER ∨ c = O_PLAYER) :
    jsStrLe (boardToString b1) (boardToString b2)
      ↔ boardLexCode b1 ≤ boardLexCode b2 := by
  unfold jsStrLe
  rw [boardToString_data, boardToString_data]
  exact lexLe_flatten_iff b1 b2 hlen w1 w2

theorem boardToString_length (b : Board)
    (w : ∀ c ∈ b, c = EMPTY ∨ c = X_PLAYER ∨ c = O_PLAYER) :
    (boardToString b).length = b.length := by
  show (boardToString b).data.length = b.length
  rw [boardToString_data]
  induction b with
  | nil => rfl
  | cons c l ih =>
    simp only [List.map_cons, List.flatten_cons, List.length_append, List.length_cons]
    rw [ih (fun x hx => w x (.tail _ hx))]
    rcases w c (.head _) with h | h | h <;> subst h <;>
      exact (by omega : 1 + l.length = l.length + 1)

theorem applyT_decode_cells (m : Nat) (t : List Nat) (ht : t ∈ TRANSFORMATIONS) :
    ∀ c ∈ applyTransformation (decodeBoardCode m) t,
      c = EMPTY ∨ c = X_PLAYER ∨ c = O_PLAYER := by
  intro c hc
  obtain ⟨i, hi, rfl⟩ := List.mem_map.mp hc
  have hi9 : i < 9 := (transformations_bounds t ht).2 i hi
  rw [decode_getD m hi9]
  have h3 := digit_lt_three m i
  rcases (by omega : digit m i = 0 ∨ digit m i = 1 ∨ digit m i = 2) with h | h | h <;>
    rw [h]
  · exact Or.inl rfl
  · exact Or.inr (Or.inl rfl)
  · exact Or.inr (Or.inr rfl)

theorem applyT_decode_length (m : Nat) (t : List Nat) (ht : t ∈ TRANSFORMATIONS) :
    (applyTransformation (decodeBoardCode m) t).length = 9 := by
  unfold applyTransformation
  rw [List.length_map, (transformations_bounds t ht).1]

theorem getCanonicalKey_decode_eq (m : Nat) :
    ∃ t ∈ TRANSFORMATIONS,
      getCanonicalKey (decodeBoardCode m)
          = boardToString (applyTransformation (decodeBoardCode m) t)
        ∧ permN t m = canonCodeN m := by
  obtain ⟨tm, htm, hmin⟩ := canonCodeN_attained m
  refine ⟨tm, htm, ?_, hmin⟩
  have hcand_mem : boardToString (applyTransformation (decodeBoardCode m) tm)
      ∈ allVersions (decodeBoardCode m) := List.mem_map_of_mem _ htm
  obtain ⟨t0, ht0, hkey⟩ := List.mem_map.mp (getCanonicalKey_mem (decodeBoardCode m))
  have hord : jsStrLe (boardToString (applyTransformation (decodeBoardCode m) tm))
      (boardToString (applyTransformation (decodeBoardCode m) t0)) := by
    rw [jsStrLe_code_iff _ _
      (by rw [applyT_decode_length m tm htm, applyT_decode_length m t0 ht0])
      (applyT_decode_cells m tm htm) (applyT_decode_cells m t0 ht0),
      permN_eq m tm (transformations_bounds tm htm).2,
      permN_eq m t0 (transformations_bounds t0 ht0).2, hmin]
    exact canonCodeN_le m t0 ht0
  have h1 : jsStrLe (getCanonicalKey (decodeBoardCode m))
      (boardToString (applyTransformation (decodeBoardCode m) tm)) :=
    getCanonicalKey_le (decodeBoardCode m) _ hcand_mem
  have h2 : jsStrLe (boardToString (applyTransformation (decodeBoardCode m) tm))
      (getCanonicalKey (decodeBoardCode m)) := by
    rw [← hkey]
    exact hord
  exact antisymm h1 h2

theorem keyIdx_getCanonicalKey_decode (m : Nat) :
    keyIdx (getCanonicalKey (decodeBoardCode m)) = canonCodeN m + 3 ^ 9 := by
  obtain ⟨t, ht, hkey, hmin⟩ := getCanonicalKey_decode_eq m
  unfold keyIdx
  rw [hkey]
  rw [stringToBoard_boardToString_eq _ (applyT_decode_cells m t ht)]
  rw [permN_eq m t (transformations_bounds t ht).2]
  rw [hmin]
  rw [boardToString_length _ (applyT_decode_cells m t ht)]
  rw [applyT_decode_length m t ht]

theorem countDistinctKeys_decode (ms : List Nat) :
    countDistinctKeys ((ms.map decodeBoardCode).map getCanonicalKey)
      = countIdx (ms.map (fun m => canonCodeN m + 3 ^ 9)) := by
  unfold countDistinctKeys
  refine congrArg countIdx ?_
  rw [List.map_map, List.map_map]
  apply List.map_congr_left
  intro m _
  show keyIdx (getCanonicalKey (decodeBoardCode m)) = canonCodeN m + 3 ^ 9
  exact keyIdx_getCanonicalKey_decode m

theorem all_nonterminal_decode (ms : List Nat) :
    (ms.map decodeBoardCode).all (fun b => !(isTerminal b))
      = ms.all (fun m => !(isTerminalN m)) := by
  induction ms with
  | nil => rfl
  | cons m ms ih => simp only [List.map_cons, List.all_cons, ih, isTerminalN_eq]

/-! ## The claims -/

/-- C1: for every 9-cell board with cell values in {Empty, X, O},
`BoardState.getCanonicalKey(board)` returns exactly the lexicographically
smallest string among the 8 encodings obtained by applying each of the 8
index-permutations in `TRANSFORMATIONS` to the board and encoding each result:
the returned key is one of those 8 encodings and is `≤` every one of them in
the JavaScript string order. -/
theorem getCanonicalKey_is_lex_smallest (b : Board) (h9 : b.length = 9)
    (hc : ∀ c ∈ b, c = EMPTY ∨ c = X_PLAYER ∨ c = O_PLAYER) :
    getCanonicalKey b ∈ allVersions b ∧
      ∀ v ∈ allVersions b, jsStrLe (getCanonicalKey b) v :=
  ⟨getCanonicalKey_mem b, getCanonicalKey_le b⟩

/-- Witness for C1 at the board with X at 0 and O at 1. -/
theorem getCanonicalKey_is_lex_smallest_witness :
    getCanonicalKey [X_PLAYER, O_PLAYER, EMPTY, EMPTY, EMPTY, EMPTY, EMPTY, EMPTY, EMPTY]
        ∈ allVersions [X_PLAYER, O_PLAYER, EMPTY, EMPTY, EMPTY, EMPTY, EMPTY, EMPTY, EMPTY] ∧
      ∀ v ∈ allVersions [X_PLAYER, O_PLAYER, EMPTY, EMPTY, EMPTY, EMPTY, EMPTY, EMPTY, EMPTY],
        jsStrLe (getCanonicalKey [X_PLAYER, O_PLAYER, EMPTY, EMPTY, EMPTY, EMPTY, EMPTY, EMPTY, EMPTY]) v :=
  getCanonicalKey_is_lex_smallest _ (by decide) (by decide)

/-- C2: for every 9-cell board `b` and each of the 8 symmetry permutations `t`
in `TRANSFORMATIONS`, `getCanonicalKey (applyTransformation b t)` equals
`getCanonicalKey b`, so any two boards related by a symmetry transformation
map to the identical canonical key. -/
theorem getCanonicalKey_applyTransformation (b : Board) (h9 : b.length = 9)
    (t : List Nat) (ht : t ∈ TRANSFORMATIONS) :
    getCanonicalKey (applyTransformation b t) = getCanonicalKey b :=
  canonKey_applyT b t ht

/-- Witness for C2: rotating the board with X at 0 and O at 1 by 90° keeps the
canonical key. -/
theorem getCanonicalKey_applyTransformation_witness :
    getCanonicalKey (applyTransformation
        [X_PLAYER, O_PLAYER, EMPTY, EMPTY, EMPTY, EMPTY, EMPTY, EMPTY, EMPTY]
        [6, 3, 0, 7, 4, 1, 8, 5, 2])
      = getCanonicalKey [X_PLAYER, O_PLAYER, EMPTY, EMPTY, EMPTY, EMPTY, EMPTY, EMPTY, EMPTY] :=
  getCanonicalKey_applyTransformation _ (by decide) _ (by decide)

/-- C4: for every 9-cell board, `BoardState.isTerminal(board)` returns true if
and only if at least one of the 8 winning lines of `WIN_PATTERNS` holds three
identical non-empty cells, or the board contains no `EMPTY` cell. -/
theorem isTerminal_iff_line_or_full (b : Board) (h9 : b.length = 9) :
    isTerminal b = true ↔ (∃ p ∈ WIN_PATTERNS, winningLine b p) ∨ EMPTY ∉ b := by
  unfold isTerminal
  rw [Bool.or_eq_true, checkWinner_isSome_iff]
  exact or_congr Iff.rfl (by simp)

/-- Witness for C4 at a full drawn board. -/
theorem isTerminal_iff_line_or_full_witness :
    isTerminal [X_PLAYER, O_PLAYER, X_PLAYER, X_PLAYER, O_PLAYER, O_PLAYER,
        O_PLAYER, X_PLAYER, X_PLAYER] = true ↔
      (∃ p ∈ WIN_PATTERNS, winningLine [X_PLAYER, O_PLAYER, X_PLAYER, X_PLAYER,
        O_PLAYER, O_PLAYER, O_PLAYER, X_PLAYER, X_PLAYER] p) ∨
      EMPTY ∉ [X_PLAYER, O_PLAYER, X_PLAYER, X_PLAYER, O_PLAYER, O_PLAYER,
        O_PLAYER, X_PLAYER, X_PLAYER] :=
  isTerminal_iff_line_or_full _ (by decide)

set_option maxHeartbeats 2000000 in
/-- C6: canonicalization is idempotent — decoding the canonical key of a legal
9-cell board back to a board and canonicalizing again yields the same key. -/
theorem getCanonicalKey_idempotent (b : Board) (h9 : b.length = 9)
    (hc : ∀ c ∈ b, c = EMPTY ∨ c = X_PLAYER ∨ c = O_PLAYER) :
    getCanonicalKey (stringToBoard (getCanonicalKey b)) = getCanonicalKey b := by
  have hmem := getCanonicalKey_mem b
  unfold allVersions at hmem
  obtain ⟨t, htmem, hkey0⟩ := List.mem_map.mp hmem
  have hkey : getCanonicalKey b = boardToString (applyTransformation b t) := hkey0.symm
  have hcells : ∀ c ∈ applyTransformation b t, c = EMPTY ∨ c = X_PLAYER ∨ c = O_PLAYER := by
    intro c hcmem
    unfold applyTransformation at hcmem
    obtain ⟨i, himem, rfl⟩ := List.mem_map.mp hcmem
    have hi9 : i < 9 := (transformations_bounds t htmem).2 i himem
    have hib : i < b.length := by omega
    rw [List.getD_eq_getElem?_getD, List.getElem?_eq_getElem hib, Option.getD_some]
    exact hc _ (List.getElem_mem hib)
  conv_lhs => rw [hkey, stringToBoard_boardToString_eq _ hcells]
  exact canonKey_applyT b t htmem

/-- Witness for C6 at the board with X at 0 and O at 1. -/
theorem getCanonicalKey_idempotent_witness :
    getCanonicalKey (stringToBoard (getCanonicalKey
        [X_PLAYER, O_PLAYER, EMPTY, EMPTY, EMPTY, EMPTY, EMPTY, EMPTY, EMPTY]))
      = getCanonicalKey [X_PLAYER, O_PLAYER, EMPTY, EMPTY, EMPTY, EMPTY, EMPTY, EMPTY, EMPTY] :=
  getCanonicalKey_idempotent _ (by decide) (by decide)

/-- C9: the codec round-trips — for every legal 9-cell board (cells in
{Empty, X, O}), `stringToBoard (boardToString b) = b`. -/
theorem stringToBoard_boardToString (b : Board) (h9 : b.length = 9)
    (hc : ∀ c ∈ b, c = EMPTY ∨ c = X_PLAYER ∨ c = O_PLAYER) :
    stringToBoard (boardToString b) = b :=
  stringToBoard_boardToString_eq b hc

/-- Witness for C9 at the board with X at 4 and O at 8. -/
theorem stringToBoard_boardToString_witness :
    stringToBoard (boardToString
        [EMPTY, EMPTY, EMPTY, EMPTY, X_PLAYER, EMPTY, EMPTY, EMPTY, O_PLAYER])
      = [EMPTY, EMPTY, EMPTY, EMPTY, X_PLAYER, EMPTY, EMPTY, EMPTY, O_PLAYER] :=
  stringToBoard_boardToString _ (by decide) (by decide)

/-- C10: the two game-over decisions agree — for every 9-cell board with legal
cell values, `BoardState.isTerminal(board)` is true exactly when
`BoardState.getGameStatus(board).over` is true. -/
theorem isTerminal_eq_getGameStatus_over (b : Board) (h9 : b.length = 9)
    (hc : ∀ c ∈ b, c = EMPTY ∨ c = X_PLAYER ∨ c = O_PLAYER) :
    isTerminal b = (getGameStatus b).over := by
  unfold getGameStatus
  cases hw : checkWinner b with
  | none =>
    rw [if_neg (by simp), if_neg (by simp)]
    unfold isTerminal
    rw [hw]
    by_cases hmem : EMPTY ∈ b
    · rw [if_neg (not_not_intro hmem)]
      simp [hmem]
    · rw [if_pos hmem]
      simp [hmem]
  | some v =>
    obtain ⟨hne, a, hveq, ha9⟩ := checkWinner_eq_some hw
    have hab : a < b.length := by omega
    have hvmem : v ∈ b := by
      rw [hveq, List.getD_eq_getElem?_getD, List.getElem?_eq_getElem hab, Option.getD_some]
      exact List.getElem_mem hab
    rcases hc v hvmem with h0 | h1 | h2
    · exact absurd h0 hne
    · subst h1
      rw [if_pos rfl]
      unfold isTerminal
      rw [hw]
      rfl
    · subst h2
      rw [if_neg (by decide), if_pos rfl]
      unfold isTerminal
      rw [hw]
      rfl

/-- Witness for C10 at a board X has won. -/
theorem isTerminal_eq_getGameStatus_over_witness :
    isTerminal [X_PLAYER, X_PLAYER, X_PLAYER, O_PLAYER, O_PLAYER, EMPTY, EMPTY, EMPTY, EMPTY]
      = (getGameStatus [X_PLAYER, X_PLAYER, X_PLAYER, O_PLAYER, O_PLAYER, EMPTY,
          EMPTY, EMPTY, EMPTY]).over :=
  isTerminal_eq_getGameStatus_over _ (by decide) (by decide)

set_option maxRecDepth 1000000 in
/-- C3: the minimax value of the empty board is 0 (perfect play draws):
`solve` — the spec's recursion instantiated with the code's terminal test,
mover rule and child construction — returns 0 on `createEmpty` with fuel 9,
enough for every line of play. Proved by checking an explicit drawing
strategy for each player against the recursion. -/
theorem solve_empty_board_draw : solve 9 createEmpty = 0 := by
  have h0 : createEmpty = decodeBoardCode 0 := by decide
  have he : solve 9 (decodeBoardCode 0) = solveN 9 0 := solveN_eq 9 0 (by norm_num)
  have hlb : (0 : Int) ≤ solveN 9 0 := checkLBN_sound 9 0 certLB (by decide!)
  have hub : solveN 9 0 ≤ 0 := checkUBN_sound 9 0 certUB (by decide!)
  rw [h0, he]
  omega

set_option maxRecDepth 1000000 in
set_option maxHeartbeats 8000000 in
/-- C5: generating the game tree from the empty board — children obtained by
the mover placing their mark in each empty cell, recursion stopping at
terminal boards, positions deduplicated by symmetry class as the generator's
memoization does — yields exactly 627 distinct canonical keys (via
`getCanonicalKey`) of non-terminal reachable boards. -/
theorem generation_yields_627_canonical_states :
    countDistinctKeys (discoveredStates.map getCanonicalKey) = 627 ∧
      discoveredStates.all (fun b => !(isTerminal b)) = true := by
  have h4 : genIter 4 initGen = genMid4 := by decide!
  have h5 : genIter 1 genMid4 = genMid5 := by decide!
  have h6 : genIter 1 genMid5 = genMid6 := by decide!
  have h7 : genIter 1 genMid6 = genMid7 := by decide!
  have h9 : genIter 2 genMid7 = genFinal := by decide!
  have a5 : genIter 5 initGen = genMid5 := by
    show genIter (1 + 4) initGen = genMid5
    rw [genIter_add, h4, h5]
  have a6 : genIter 6 initGen = genMid6 := by
    show genIter (1 + 5) initGen = genMid6
    rw [genIter_add, a5, h6]
  have a7 : genIter 7 initGen = genMid7 := by
    show genIter (1 + 6) initGen = genMid7
    rw [genIter_add, a6, h7]
  have hall : genIter 9 initGen = genFinal := by
    show genIter (2 + 7) initGen = genFinal
    rw [genIter_add, a7, h9]
  have hds : discoveredStates = genFinal.reps.map decodeBoardCode := by
    unfold discoveredStates
    rw [hall]
  constructor
  · rw [hds, countDistinctKeys_decode]
    decide!
  · rw [hds, all_nonterminal_decode]
    decide!

/-- C7 counterexample: the codec does not validate its input — `boardToString`
returns a string (it does not fail) on a board with the out-of-range cell
value 5, and `stringToBoard` returns a board (it does not fail) on the key
`"abc"`, which has length 3 and no recognized symbol. -/
theorem codec_validation_counterexample :
    boardToStringE [JsNum.num 5, EMPTY, EMPTY, EMPTY, EMPTY, EMPTY, EMPTY, EMPTY, EMPTY]
        = .ok ("500000000") ∧
      (¬ ∃ e, boardToStringE [JsNum.num 5, EMPTY, EMPTY, EMPTY, EMPTY, EMPTY, EMPTY,
        EMPTY, EMPTY] = .error e) ∧
      stringToBoardE ("abc") = .ok [JsNum.nan, JsNum.nan, JsNum.nan] ∧
      (¬ ∃ e, stringToBoardE ("abc") = .error e) :=
  ⟨rfl, fun ⟨_, he⟩ => by simp [boardToStringE] at he, rfl,
    fun ⟨_, he⟩ => by simp [stringToBoardE] at he⟩

/-- C7 as amended: the codec performs no validation and never throws —
`boardToString` returns a string for every board, `stringToBoard` returns a
board with one entry per character for every key, and on well-formed boards
decoding inverts encoding. -/
theorem codec_total_no_validation (b : Board) (s : String) :
    (∃ r, boardToStringE b = .ok r) ∧
      (∃ l, stringToBoardE s = .ok l ∧ l.length = s.length) ∧
      ((∀ c ∈ b, c = EMPTY ∨ c = X_PLAYER ∨ c = O_PLAYER) →
        stringToBoard (boardToString b) = b) :=
  ⟨⟨boardToString b, rfl⟩,
    ⟨stringToBoard s, rfl, by unfold stringToBoard; rw [List.length_map]; rfl⟩,
    fun hc => stringToBoard_boardToString_eq b hc⟩

/-- Witness for C7 as amended, at a board with an out-of-range cell and a
malformed key. -/
theorem codec_total_no_validation_witness :
    (∃ r, boardToStringE [JsNum.num 7, EMPTY, EMPTY] = .ok r) ∧
      (∃ l, stringToBoardE ("12x") = .ok l ∧ l.length = "12x".length) ∧
      ((∀ c ∈ [JsNum.num 7, EMPTY, EMPTY],
          c = EMPTY ∨ c = X_PLAYER ∨ c = O_PLAYER) →
        stringToBoard (boardToString [JsNum.num 7, EMPTY, EMPTY])
          = [JsNum.num 7, EMPTY, EMPTY]) :=
  codec_total_no_validation [JsNum.num 7, EMPTY, EMPTY] "12x"

/-- C8: once the game tree is loaded, `GameTreeLoader.getState(key)` returns
the stored record when the key is present, returns `null` when the key is
absent, and never throws. -/
theorem getState_loaded_behavior (l : GameTreeLoader) (k : String)
    (h : l.isLoaded = true) :
    (∀ r, l.gameTree.lookup k = some r → l.getState k = .ok (some r)) ∧
      (l.gameTree.lookup k = none → l.getState k = .ok none) ∧
      (∀ e, l.getState k ≠ .error e) := by
  unfold GameTreeLoader.getState
  rw [h]
  refine ⟨?_, ?_, ?_⟩
  · intro r hr
    rw [if_neg (by simp), hr]
  · intro hr
    rw [if_neg (by simp), hr]
  · intro e
    rw [if_neg (by simp)]
    cases l.gameTree.lookup k <;> simp

/-- Witness for C8 at a one-entry loaded table: a present key returns its
record, an absent key returns null. -/
theorem getState_loaded_behavior_witness :
    sampleLoader.getState ("000000000") = .ok (some sampleState) ∧
      sampleLoader.getState ("111111111") = .ok none :=
  ⟨(getState_loaded_behavior sampleLoader ("000000000") rfl).1 sampleState rfl,
    (getState_loaded_behavior sampleLoader ("111111111") rfl).2.1 rfl⟩
